import Mathlib

/-!
Verification of the StampRally repository core against its specification.

The development shallowly embeds, directly from the Python source:

* `database/QueryComposer.py` — the tenant-scoped statement builder
  (`QueryComposer.generate_query`), as a pure function from the composer's
  bound state and the caller's arguments to the generated SQL string
  (or the `ValueError` the source raises).
* `routers/users.py` — the stamp-recording transaction (`record_stamp`),
  the progress read path (`_ensure_user_progress`, `_load_user_progress`),
  coupon usage (`mark_coupon_used`), and the timezone helpers
  (`_tzinfo_from_offset`, `_resolve_campaign_timezone`,
  `_resolve_timezone_from_config`).
* `routers/tenants.py` — the offset coercion helpers
  (`_coerce_timezone_to_offset`, `_format_offset`,
  `_resolve_default_campaign_timezone`).

Database tables are lists of row structures; one request's transaction is a
function from the database state to (result, new state), where every branch
of the source that raises after uncommitted writes returns the unchanged
pre-state (rollback).  Timestamps and campaign boundaries are modelled as
integers (the parsed instants the Python code compares with `<` / `>`);
tenant configuration documents are modelled post-JSON-parsing as records.
-/

namespace StampRally

/-! ## SQL values, as discriminated by `isinstance` in QueryComposer -/

/-- A Python value as `QueryComposer.generate_query` discriminates values:
`None`, the quoted classes (`str`, `date`, `datetime`, `time` — all rendered
inside single quotes), `bool`, and everything else rendered with `str(...)`
(modelled by `int`). -/
inductive SqlValue where
  | vnull : SqlValue
  | vstr (s : String) : SqlValue
  | vbool (b : Bool) : SqlValue
  | vint (n : Int) : SqlValue
deriving Repr, DecidableEq

/-- One entry of the `conditions` dict, rendered as in
`QueryComposer.generate_query` (the `where_conditions` loop). -/
def renderCondition (field : String) (v : SqlValue) : String :=
  match v with
  | .vnull => field ++ " IS NULL"
  | .vstr s => field ++ " = '" ++ s ++ "'"
  | .vbool b => field ++ " = " ++ (if b then "true" else "false")
  | .vint n => field ++ " = " ++ toString n

/-- A value in an INSERT values list (`QueryComposer.generate_query`,
insert branch). -/
def renderValue (v : SqlValue) : String :=
  match v with
  | .vnull => "NULL"
  | .vstr s => "'" ++ s ++ "'"
  | .vbool b => if b then "true" else "false"
  | .vint n => toString n

/-- A `field = value` item of an UPDATE SET list
(`QueryComposer.generate_query`, update branch). -/
def renderSetItem (field : String) (v : SqlValue) : String :=
  match v with
  | .vnull => field ++ " = NULL"
  | .vstr s => field ++ " = '" ++ s ++ "'"
  | .vbool b => field ++ " = " ++ (if b then "true" else "false")
  | .vint n => field ++ " = " ++ toString n

/-- Helper for `_convert_to_snake_case`: insert `_` between a lowercase
letter or digit and an uppercase letter (the effect of
`re.sub('([a-z0-9])([A-Z])', r'\1_\2', name)`; the pattern's first
character class never matches an uppercase letter, so non-overlapping
substitution inserts exactly at these boundaries). -/
def snakeGo : List Char → List Char
  | [] => []
  | [c] => [c]
  | a :: b :: rest =>
    if (a.isLower || a.isDigit) && b.isUpper then a :: '_' :: snakeGo (b :: rest)
    else a :: snakeGo (b :: rest)

/-- `QueryComposer._convert_to_snake_case`. -/
def convert_to_snake_case (name : String) : String :=
  ⟨(snakeGo name.data).map Char.toLower⟩

/-- The entity descriptor `generate_query` consumes: the pydantic model's
class name, its `__fields__` key list, and `datamodel.dict(exclude_unset=True)`
as an ordered association list. -/
structure EntityModel where
  className : String
  fields : List String
  setValues : List (String × SqlValue)
deriving Repr, DecidableEq

/-- `[f"{field}" for field in conditions]` rendered, in dict order. -/
def buildWhereConditions (conditions : Option (List (String × SqlValue))) : List String :=
  match conditions with
  | none => []
  | some l => l.map (fun p => renderCondition p.1 p.2)

/-- The caller-supplied `where_clause` that `generate_query` computes before
any branch (empty when there are no conditions). -/
def buildWhereClause (conditions : Option (List (String × SqlValue))) : String :=
  let wcs := buildWhereConditions conditions
  if wcs.isEmpty then "" else " WHERE " ++ String.intercalate " AND " wcs

/-- The schema-qualified table name (`self.schema` is truthy-checked). -/
def tableNameOf (schema : Option String) (className : String) : String :=
  let tn := convert_to_snake_case className
  match schema with
  | some sc => if sc ≠ "" then sc ++ "." ++ tn else tn
  | none => tn

/-- The where clause after the implicit tenant condition is appended:
`where_clause + " AND " + tenant_condition` when the caller supplied
conditions, `" WHERE " + tenant_condition` otherwise.  `qual` is
`f"{table_name}."` in the select branch and `""` in update/delete. -/
def tenantScopedWhere (qual : String) (conditions : Option (List (String × SqlValue)))
    (t : String) : String :=
  if buildWhereClause conditions ≠ "" then
    buildWhereClause conditions ++ " AND " ++ (qual ++ "tenant_id = '" ++ t ++ "'")
  else " WHERE " ++ (qual ++ "tenant_id = '" ++ t ++ "'")

/-- Python truthiness of the bound `self.tenant_id`. -/
def boundTenant (tenant_id : Option String) : Option String :=
  match tenant_id with
  | some t => if t = "" then none else some t
  | none => none

/-- Dict assignment `data_map["tenant_id"] = self.tenant_id`: replace the
value of an existing key in place, else append the pair. -/
def dictInsert (m : List (String × SqlValue)) (k : String) (v : SqlValue) :
    List (String × SqlValue) :=
  if m.any (fun p => p.1 == k) then m.map (fun p => if p.1 == k then (k, v) else p)
  else m ++ [(k, v)]

/-- Python `str.strip()` (on the whitespace the inputs use). -/
def pyStrip (s : String) : String :=
  ⟨((s.data.dropWhile Char.isWhitespace).reverse.dropWhile Char.isWhitespace).reverse⟩

/-- Python `str.lower()` (ASCII, as the allow-listed inputs are). -/
def pyLower (s : String) : String :=
  ⟨s.data.map Char.toLower⟩

/-- `addSqlQuery.strip().upper().startswith('WHERE')`. -/
def startsWithWhereToken (s : String) : Bool :=
  ((pyStrip s).data.map Char.toUpper).take 5 == ['W', 'H', 'E', 'R', 'E']

/-- `addSqlQuery.lstrip('WHERE ')` — `lstrip` takes a character set. -/
def lstripWhereChars (s : String) : String :=
  ⟨s.data.dropWhile (fun c => c ∈ ['W', 'H', 'E', 'R', ' '])⟩

/-- `query.replace("\n", "")` in the select branch. -/
def removeNewlines (s : String) : String :=
  ⟨s.data.filter (fun c => c ≠ '\n')⟩

/-- `QueryComposer.generate_query`.  The first two arguments are the
composer's constructor state (`self.tenant_id`, `self.schema`); the rest are
the call's arguments.  `.error` is the raised `ValueError`'s message. -/
def generate_query (tenant_id : Option String) (schema : Option String)
    (datamodel : EntityModel) (related_models : List EntityModel)
    (sqltype : String) (addSqlQuery : String)
    (conditions : Option (List (String × SqlValue)))
    (join_clause : Option String) (select_fields : Option String) :
    Except String String :=
  let related_fields := related_models.foldl (fun acc m =>
    let model_fields := String.intercalate ", " m.fields
    if model_fields ≠ "" then acc ++ ", " ++ model_fields else acc) ""
  let table_name := tableNameOf schema datamodel.className
  let where_clause := buildWhereClause conditions
  let tenant := boundTenant tenant_id
  if sqltype = "select" then
    let base_fields :=
      String.intercalate ", " (datamodel.fields.map (fun f => table_name ++ "." ++ f))
    let join_sql := join_clause.getD ""
    let all_select_fields :=
      match select_fields with
      | some sf => if sf ≠ "" then sf else base_fields ++ related_fields
      | none => base_fields ++ related_fields
    let where_clause1 :=
      match tenant with
      | some t =>
        if datamodel.fields.contains "tenant_id" then
          tenantScopedWhere (table_name ++ ".") conditions t
        else where_clause
      | none => where_clause
    let (where_clause2, additional_clauses) :=
      if addSqlQuery ≠ "" then
        if startsWithWhereToken addSqlQuery then
          let where_part := lstripWhereChars addSqlQuery
          (if where_clause1 ≠ "" then where_clause1 ++ " AND " ++ where_part
           else " WHERE " ++ where_part, "")
        else (where_clause1, " " ++ addSqlQuery)
      else (where_clause1, "")
    .ok (removeNewlines ("SELECT " ++ all_select_fields ++ " FROM " ++ table_name ++
      join_sql ++ where_clause2 ++ additional_clauses ++ ";"))
  else if sqltype = "insert" then
    let data_map :=
      match tenant with
      | some t =>
        if datamodel.fields.contains "tenant_id" then
          dictInsert datamodel.setValues "tenant_id" (.vstr t)
        else datamodel.setValues
      | none => datamodel.setValues
    let fields := String.intercalate ", " (data_map.map (fun p => p.1))
    let values_str := String.intercalate ", " (data_map.map (fun p => renderValue p.2))
    .ok ("INSERT INTO " ++ table_name ++ " (" ++ fields ++ ") VALUES (" ++
      values_str ++ ") RETURNING *;")
  else if sqltype = "update" then
    if where_clause = "" then .error "更新条件が指定されていません"
    else
      let where_clause1 :=
        match tenant with
        | some t =>
          if datamodel.fields.contains "tenant_id" then tenantScopedWhere "" conditions t
          else where_clause
        | none => where_clause
      let update_values := datamodel.setValues.map (fun p => renderSetItem p.1 p.2)
      .ok ("UPDATE " ++ table_name ++ " SET " ++ String.intercalate ", " update_values ++
        " " ++ where_clause1 ++ " RETURNING *;")
  else if sqltype = "delete" then
    if where_clause = "" then .error "削除条件が指定されていません"
    else
      let where_clause1 :=
        match tenant with
        | some t =>
          if datamodel.fields.contains "tenant_id" then tenantScopedWhere "" conditions t
          else where_clause
        | none => where_clause
      .ok ("DELETE FROM " ++ table_name ++ " " ++ where_clause1 ++ " RETURNING *;")
  else .error "無効なSQLタイプです。対応している種類: 'select', 'insert', 'update', 'delete'"

/-- Whether an `Except` result is a success. -/
def isOkE (e : Except String String) : Bool :=
  match e with
  | .ok _ => true
  | .error _ => false

/-! ## Data model (logical schema of §6, as the routers read and write it) -/

/-- A `stores` row. -/
structure StoreRow where
  tenant_id : String
  store_id : String
  name : String
deriving Repr, DecidableEq

/-- A `user_progress` row (`user_id` is unique: `ON CONFLICT (user_id)`). -/
structure ProgressRow where
  user_id : Nat
  tenant_id : String
  stamps : Nat
deriving Repr, DecidableEq

/-- A `user_store_stamps` ledger row. -/
structure StampRow where
  user_id : Nat
  tenant_id : String
  store_id : String
deriving Repr, DecidableEq

/-- A `reward_rules` row (`icon` may be NULL). -/
structure RuleRow where
  tenant_id : String
  threshold : Nat
  label : String
  icon : Option String
deriving Repr, DecidableEq

/-- A `user_coupons` row. -/
structure CouponRow where
  user_id : Nat
  tenant_id : String
  coupon_id : String
  title : String
  description : String
  used : Bool
deriving Repr, DecidableEq

/-- A tenant's configuration document, post JSON parsing, with the campaign
window boundaries already taken through `_parse_campaign_boundary` to the
instants (`datetime`s) the code compares with `<` / `>` — modelled as
integers; `none` is an absent or unparsable boundary, which the code skips. -/
structure TenantConfig where
  campaignStart : Option Int
  campaignEnd : Option Int
  language : Option String
deriving Repr, DecidableEq

/-- A `tenants` row (only `tenant_id` and `config` are read by the core). -/
structure TenantRow where
  tenant_id : String
  config : TenantConfig
deriving Repr, DecidableEq

/-- The database state a request's connection sees.  Each table is a list in
insertion order (matching the `ORDER BY created_at, id` reads). -/
structure DBState where
  tenants : List TenantRow
  stores : List StoreRow
  user_progress : List ProgressRow
  user_store_stamps : List StampRow
  reward_rules : List RuleRow
  user_coupons : List CouponRow
deriving Repr, DecidableEq

/-! ## Small helpers of `routers/users.py` -/

/-- `_normalize_language` (`ALLOWED_LANGUAGES = {"ja", "en", "zh"}`). -/
def normalize_language (value : Option String) : String :=
  match value with
  | none => "ja"
  | some v =>
    if v = "" then "ja"
    else
      let code := pyLower (pyStrip v)
      if ["ja", "en", "zh"].contains code then code else "ja"

/-- `_coupon_description_for_threshold`. -/
def coupon_description_for_threshold (threshold : Nat) (language : String) : String :=
  if language = "en" then "Coupon unlocked at " ++ toString threshold ++ " stamps"
  else if language = "zh" then "集滿 " ++ toString threshold ++ " 個印章獲得的優惠券"
  else toString threshold ++ "個達成で獲得したクーポン"

/-- The deterministic rule-coupon identifier
`f"tenant-{tenant_id}-rule-{threshold}"`. -/
def rule_coupon_id (tenant_id : String) (threshold : Nat) : String :=
  "tenant-" ++ tenant_id ++ "-rule-" ++ toString threshold

/-- Digits of `group(1)` to the `int` the code builds; `none` when empty or
non-digit (the regex only captures `\d+`, so `none` marks a failed match). -/
def digitsToNat (cs : List Char) : Option Nat :=
  if cs ≠ [] && cs.all (fun c => c.isDigit) then
    some (cs.foldl (fun n c => n * 10 + (c.toNat - 48)) 0)
  else none

/-- `_extract_threshold_from_coupon_id`: match
`^tenant-[^-]+-rule-(\d+)$`.  `[^-]+` cannot cross a dash, so it matches the
maximal dash-free run after `tenant-`, deterministically. -/
def extract_threshold_from_coupon_id (coupon_id : String) : Option Nat :=
  let cs := coupon_id.data
  if cs.take 7 ≠ ['t', 'e', 'n', 'a', 'n', 't', '-'] then none
  else
    let rest := cs.drop 7
    let mid := rest.takeWhile (fun c => c ≠ '-')
    let rest2 := rest.dropWhile (fun c => c ≠ '-')
    if mid = [] then none
    else if rest2.take 6 ≠ ['-', 'r', 'u', 'l', 'e', '-'] then none
    else digitsToNat (rest2.drop 6)

/-! ## Timezone helpers (`routers/users.py` and `routers/tenants.py`) -/

/-- The result of matching `_UTC_OFFSET_PATTERN =
^UTC([+-])(?:(\d{1,2})(?::([0-5]\d))?)$` against an already-stripped string:
`(negative-sign, hours, minutes)`, where absent minutes read as `int("00")`.
`\d{1,2}` must take the whole maximal digit run (a third digit could only be
consumed by `:` or the end and fails either way), so matching is
deterministic. -/
def parse_utc_offset (text : String) : Option (Bool × Nat × Nat) :=
  let cs := text.data
  if cs.take 3 ≠ ['U', 'T', 'C'] then none
  else
    match cs.drop 3 with
    | [] => none
    | sign :: rest =>
      if sign ≠ '+' && sign ≠ '-' then none
      else
        let ds := rest.takeWhile (fun c => c.isDigit)
        let rest2 := rest.dropWhile (fun c => c.isDigit)
        if ds.length = 0 || ds.length > 2 then none
        else
          match digitsToNat ds with
          | none => none
          | some hours =>
            match rest2 with
            | [] => some (sign = '-', hours, 0)
            | ':' :: m1 :: m2 :: [] =>
              if '0' ≤ m1 && m1 ≤ '5' && m2.isDigit then
                some (sign = '-', hours, (m1.toNat - 48) * 10 + (m2.toNat - 48))
              else none
            | _ => none

/-- `_tzinfo_from_offset` (users.py): the accepted fixed offset in minutes,
`none` when the function returns `None`. -/
def tzinfo_from_offset (value : Option String) : Option Int :=
  match value with
  | none => none
  | some v =>
    if v = "" then none
    else
      let text := pyStrip v
      if text = "" then none
      else
        match parse_utc_offset text with
        | none => none
        | some (neg, hours, minutes) =>
          if hours > 14 || (hours = 14 && minutes ≠ 0) then none
          else
            let off : Int := (hours : Int) * 60 + (minutes : Int)
            some (if neg then -off else off)

/-- A resolved `tzinfo` value: a fixed offset (in minutes; `timezone.utc` is
`offset 0`), a named `ZoneInfo`, or the process's system-local timezone. -/
inductive ResolvedTz where
  | offset (minutes : Int) : ResolvedTz
  | named (zone : String) : ResolvedTz
  | system : ResolvedTz
deriving Repr, DecidableEq

/-- `_resolve_campaign_timezone` (users.py, computed once at import into
`CAMPAIGN_TZ`).  `default_timezone` models
`getattr(settings, "DEFAULT_TIMEZONE", None)`; `zoneValid z` models
`ZoneInfo(z)` succeeding; `local_tz` models
`datetime.now().astimezone().tzinfo` (`none` when falsy or raising). -/
def resolve_campaign_timezone (default_timezone : Option String)
    (zoneValid : String → Bool) (local_tz : Option ResolvedTz) : ResolvedTz :=
  match tzinfo_from_offset default_timezone with
  | some m => .offset m
  | none =>
    let fallthrough :=
      match local_tz with
      | some l => l
      | none => .offset 0
    match default_timezone with
    | some v => if v ≠ "" && zoneValid v then .named v else fallthrough
    | none => fallthrough

/-- Python `x or y` on optional strings (`""` and `None` are falsy). -/
def pyOr (a b : Option String) : Option String :=
  match a with
  | some s => if s = "" then b else some s
  | none => b

/-- `_resolve_timezone_from_config` (users.py): explicit offset, else named
zone, else the module-level `CAMPAIGN_TZ` (`campaign_tz` here). -/
def resolve_timezone_from_config (campaignTimezone campaign_timezone : Option String)
    (default_timezone : Option String) (zoneValid : String → Bool)
    (campaign_tz : ResolvedTz) : ResolvedTz :=
  let tz_value := pyOr campaignTimezone (pyOr campaign_timezone default_timezone)
  match tzinfo_from_offset tz_value with
  | some m => .offset m
  | none =>
    match tz_value with
    | some v => if v ≠ "" && zoneValid v then .named v else campaign_tz
    | none => campaign_tz

/-- `f"{n:02d}"`. -/
def pad2 (n : Nat) : String :=
  if n < 10 then "0" ++ toString n else toString n

/-- `_format_offset` (tenants.py), on the offset's `total_seconds()`. -/
def format_offset (total_seconds : Int) : Option String :=
  if total_seconds % 60 ≠ 0 then none
  else
    let total_minutes := total_seconds / 60
    if total_minutes < -14 * 60 || total_minutes > 14 * 60 then none
    else
      let sign := if total_minutes ≥ 0 then "+" else "-"
      let tm := total_minutes.natAbs
      let hours := tm / 60
      let minutes := tm % 60
      if hours = 14 && minutes ≠ 0 then none
      else some ("UTC" ++ sign ++ pad2 hours ++ ":" ++ pad2 minutes)

/-- `_coerce_timezone_to_offset` (tenants.py).  `zoneOffsetSeconds z` models
`datetime.now(ZoneInfo(z)).utcoffset().total_seconds()`, `none` when
`ZoneInfo` raises or `utcoffset()` is `None`. -/
def coerce_timezone_to_offset (value : Option String)
    (zoneOffsetSeconds : String → Option Int) : Option String :=
  match value with
  | none => none
  | some v =>
    let text := pyStrip v
    if text = "" then none
    else
      match parse_utc_offset text with
      | some (neg, hours, minutes) =>
        if hours > 14 || (hours = 14 && minutes ≠ 0) then none
        else some ("UTC" ++ (if neg then "-" else "+") ++ pad2 hours ++ ":" ++ pad2 minutes)
      | none =>
        match zoneOffsetSeconds text with
        | none => none
        | some secs => format_offset secs

/-- `_resolve_default_campaign_timezone` (tenants.py, computed once at import
into `DEFAULT_CAMPAIGN_TIMEZONE`); `_UTC_OFFSET_FALLBACK = "UTC+09:00"`. -/
def resolve_default_campaign_timezone (default_timezone : Option String)
    (zoneOffsetSeconds : String → Option Int) : String :=
  match coerce_timezone_to_offset default_timezone zoneOffsetSeconds with
  | some s => if s = "" then "UTC+09:00" else s
  | none => "UTC+09:00"

/-! ## Stamp / progress / coupon operations (`routers/users.py`) -/

/-- `_ensure_user_progress`: `INSERT ... VALUES (user, tenant, 0)
ON CONFLICT (user_id) DO NOTHING`. -/
def ensure_user_progress (db : DBState) (user_id : Nat) (tenant_id : String) : DBState :=
  if db.user_progress.any (fun r => r.user_id == user_id) then db
  else { db with user_progress := db.user_progress ++ [⟨user_id, tenant_id, 0⟩] }

/-- `SELECT stamps FROM user_progress WHERE user_id = %s`, defaulting to 0
when no row exists (as every caller does). -/
def progress_stamps (db : DBState) (user_id : Nat) : Nat :=
  match db.user_progress.find? (fun r => r.user_id == user_id) with
  | some r => r.stamps
  | none => 0

/-- The number of `user_store_stamps` ledger rows of one user. -/
def stampCount (db : DBState) (user_id : Nat) : Nat :=
  (db.user_store_stamps.filter (fun r => r.user_id == user_id)).length

/-- `SELECT store_id FROM user_store_stamps WHERE user_id = %s`. -/
def stamped_store_ids (db : DBState) (user_id : Nat) : List String :=
  (db.user_store_stamps.filter (fun r => r.user_id == user_id)).map (fun r => r.store_id)

/-- The campaign-window check of `record_stamp` (users.py lines 490-542):
compare `now` against the parsed boundaries; the whole check is skipped when
the tenant row is absent.  Returns the 403 detail message on rejection. -/
def campaign_rejection (db : DBState) (tenant_id : String) (now : Int) : Option String :=
  match db.tenants.find? (fun t => t.tenant_id == tenant_id) with
  | none => none
  | some t =>
    let startRej :=
      match t.config.campaignStart with
      | some s => decide (now < s)
      | none => false
    if startRej then some "キャンペーン開始前のためスタンプを押せません。"
    else
      let endRej :=
        match t.config.campaignEnd with
        | some e => decide (now > e)
        | none => false
      if endRej then some "キャンペーン終了後のためスタンプを押せません。"
      else none

/-- The language `record_stamp` resolves: `"ja"` when the tenant row is
absent, else the normalized `config["language"]`. -/
def tenant_language (db : DBState) (tenant_id : String) : String :=
  match db.tenants.find? (fun t => t.tenant_id == tenant_id) with
  | none => "ja"
  | some t => normalize_language t.config.language

/-- Stable insertion for `ORDER BY threshold` (thresholds are unique per
tenant, so tie order is irrelevant). -/
def insertByThreshold (r : RuleRow) : List RuleRow → List RuleRow
  | [] => [r]
  | x :: xs => if r.threshold < x.threshold then r :: x :: xs else x :: insertByThreshold r xs

/-- `ORDER BY threshold` on a tenant's reward rules. -/
def sort_rules : List RuleRow → List RuleRow
  | [] => []
  | r :: rs => insertByThreshold r (sort_rules rs)

/-- A coupon as serialized back to the caller (`CouponModel`). -/
structure CouponModel where
  id : String
  tenantId : String
  title : String
  description : Option String
  used : Bool
  icon : Option String
deriving Repr, DecidableEq

/-- `StoreSummary`. -/
structure StoreSummary where
  id : String
  tenantId : String
  name : String
  hasStamped : Bool
deriving Repr, DecidableEq

/-- `StampResponse.status` (`"stamped" | "already_stamped" | "store-not-found"`). -/
inductive StampStatus where
  | stamped
  | already_stamped
  | store_not_found
deriving Repr, DecidableEq

/-- `StampResponse`. -/
structure StampResponse where
  status : StampStatus
  store : Option StoreSummary
  stamps : Nat
  new_coupons : List CouponModel
  stampedStoreIds : List String
deriving Repr, DecidableEq

/-- A `record_stamp` outcome: a 200 `StampResponse`, or a raised
`HTTPException (code, detail)`. -/
inductive RecordResult where
  | resp (r : StampResponse) : RecordResult
  | err (code : Nat) (detail : String) : RecordResult
deriving Repr, DecidableEq

/-- One iteration of the reward-rule loop in `record_stamp`: the accumulator
carries the built `new_coupons`, the `user_coupons` rows inserted so far in
this transaction, and `existing_coupon_ids` (grown as the loop inserts). -/
def issue_coupons_step (user_id : Nat) (tenant_id : String) (language : String)
    (stamps_value : Nat)
    (acc : List CouponModel × List CouponRow × List String) (r : RuleRow) :
    List CouponModel × List CouponRow × List String :=
  let (new_coupons, inserted, existing_ids) := acc
  let coupon_identifier := rule_coupon_id tenant_id r.threshold
  if r.threshold ≤ stamps_value && !(existing_ids.contains coupon_identifier) then
    let description := coupon_description_for_threshold r.threshold language
    (new_coupons ++ [{ id := coupon_identifier, tenantId := tenant_id, title := r.label,
                       description := some description, used := false, icon := r.icon }],
     inserted ++ [⟨user_id, tenant_id, coupon_identifier, r.label, description, false⟩],
     existing_ids ++ [coupon_identifier])
  else acc

/-- `record_stamp` (`POST /api/users/me/stamps`), one request's transaction.
All writes are uncommitted until the final commit of the taken branch, so a
raising branch returns the pre-state (rollback).

`insert_hits_unique_violation` injects the race of §4.3: the
`INSERT INTO user_store_stamps` raises the `(user_id, store_id)`
uniqueness-constraint violation because a concurrent identical attempt
committed first (invisible to this transaction's earlier `SELECT 1` check).
The source has no handler for it besides the final
`except Exception: rollback; raise HTTPException(500, "Failed to record stamp")`. -/
def record_stamp (db : DBState) (user_id : Nat) (tenant_id : String)
    (store_id_raw : String) (now : Int) (insert_hits_unique_violation : Bool) :
    RecordResult × DBState :=
  let store_id := pyStrip store_id_raw
  if store_id = "" then (.err 400 "Invalid store id", db)
  else
    match db.stores.find? (fun s => s.tenant_id == tenant_id && s.store_id == store_id) with
    | none =>
      (.resp { status := .store_not_found, store := none,
               stamps := progress_stamps db user_id, new_coupons := [],
               stampedStoreIds := [] }, db)
    | some store_row =>
      let store_summary : StoreSummary :=
        { id := store_row.store_id, tenantId := tenant_id, name := store_row.name,
          hasStamped := true }
      let language := tenant_language db tenant_id
      match campaign_rejection db tenant_id now with
      | some msg => (.err 403 msg, db)
      | none =>
        let db1 := ensure_user_progress db user_id tenant_id
        if db1.user_store_stamps.any (fun r => r.user_id == user_id && r.store_id == store_id) then
          (.resp { status := .already_stamped, store := some store_summary,
                   stamps := progress_stamps db1 user_id, new_coupons := [],
                   stampedStoreIds := stamped_store_ids db1 user_id }, db1)
        else if insert_hits_unique_violation then
          (.err 500 "Failed to record stamp", db)
        else
          let db2 : DBState := { db1 with
            user_store_stamps := db1.user_store_stamps ++ [⟨user_id, tenant_id, store_id⟩] }
          let (stamps_value, db3) : Nat × DBState :=
            if db2.user_progress.any (fun r => r.user_id == user_id) then
              let incremented := db2.user_progress.map
                (fun r => if r.user_id == user_id then { r with stamps := r.stamps + 1 } else r)
              let db3 := { db2 with user_progress := incremented }
              (progress_stamps db3 user_id, db3)
            else
              (1, { db2 with user_progress := db2.user_progress ++ [⟨user_id, tenant_id, 1⟩] })
          let existing_ids :=
            (db3.user_coupons.filter (fun c => c.user_id == user_id)).map (fun c => c.coupon_id)
          let rules := sort_rules (db3.reward_rules.filter (fun r => r.tenant_id == tenant_id))
          let (new_coupons, inserted, _) :=
            rules.foldl (issue_coupons_step user_id tenant_id language stamps_value)
              ([], [], existing_ids)
          let db4 := { db3 with user_coupons := db3.user_coupons ++ inserted }
          (.resp { status := .stamped, store := some store_summary, stamps := stamps_value,
                   new_coupons := new_coupons,
                   stampedStoreIds := stamped_store_ids db4 user_id }, db4)

/-- The `icon_map` dict build step of `_load_user_progress`
(`icon_map[int(threshold)] = row.get("icon")`): assignment replaces an
existing key's value, else appends. -/
def iconMapInsert (m : List (Nat × Option String)) (k : Nat) (v : Option String) :
    List (Nat × Option String) :=
  if m.any (fun p => p.1 == k) then m.map (fun p => if p.1 == k then (k, v) else p)
  else m ++ [(k, v)]

/-- `icon_map.get(threshold)`: `None` both when the key is absent and when
the stored icon is NULL. -/
def iconMapGet (m : List (Nat × Option String)) (k : Nat) : Option String :=
  match m.find? (fun p => p.1 == k) with
  | some p => p.2
  | none => none

/-- The `icon_map` of `_load_user_progress`, built over the tenant's
`reward_rules` rows in table order. -/
def build_icon_map (rules : List RuleRow) : List (Nat × Option String) :=
  rules.foldl (fun m r => iconMapInsert m r.threshold r.icon) []

/-- `ProgressResponse`. -/
structure ProgressResponse where
  tenantId : String
  stamps : Nat
  coupons : List CouponModel
  stampedStoreIds : List String
deriving Repr, DecidableEq

/-- One coupon row serialized by `_load_user_progress`: when the id matches
the rule-coupon pattern, `description` is recomputed from the threshold and
current language and `icon` from the current rule's icon; otherwise the
stored description is returned and `icon` stays `None`. -/
def render_coupon (language : String) (icon_map : List (Nat × Option String))
    (row : CouponRow) : CouponModel :=
  match extract_threshold_from_coupon_id row.coupon_id with
  | some threshold =>
    { id := row.coupon_id, tenantId := row.tenant_id, title := row.title,
      description := some (coupon_description_for_threshold threshold language),
      used := row.used, icon := iconMapGet icon_map threshold }
  | none =>
    { id := row.coupon_id, tenantId := row.tenant_id, title := row.title,
      description := some row.description, used := row.used, icon := none }

/-- The tenant `_load_user_progress` reports: the progress row's
`tenant_id` when one exists, else the caller's. -/
def progress_tenant (db : DBState) (user_id : Nat) (tenant_id : String) : String :=
  match db.user_progress.find? (fun r => r.user_id == user_id) with
  | some r => r.tenant_id
  | none => tenant_id

/-- The language `_load_user_progress` resolves for a tenant (absent tenant
row means empty config, hence the default). -/
def config_language (db : DBState) (tenant : String) : String :=
  normalize_language
    (((db.tenants.find? (fun t => t.tenant_id == tenant)).map
      (fun t => t.config)).bind (fun c => c.language))

/-- `_load_user_progress` (pure read). -/
def load_user_progress (db : DBState) (user_id : Nat) (tenant_id : String) :
    ProgressResponse :=
  let stamps := progress_stamps db user_id
  let tenant := progress_tenant db user_id tenant_id
  let language := config_language db tenant
  let coupon_rows := db.user_coupons.filter (fun c => c.user_id == user_id)
  let rule_rows := db.reward_rules.filter (fun r => r.tenant_id == tenant)
  let icon_map := build_icon_map rule_rows
  { tenantId := tenant, stamps := stamps,
    coupons := coupon_rows.map (render_coupon language icon_map),
    stampedStoreIds := stamped_store_ids db user_id }

/-- `GET /api/users/me/progress`: lazy-init upsert, then the pure read. -/
def read_user_progress (db : DBState) (user_id : Nat) (tenant_id : String) :
    ProgressResponse × DBState :=
  let db1 := ensure_user_progress db user_id tenant_id
  (load_user_progress db1 user_id tenant_id, db1)

/-- The serialization of the row `mark_coupon_used` returns: description and
icon recomputed from the current tenant config and reward rule when the id
matches the rule-coupon pattern, the stored description otherwise. -/
def mark_result (db1 : DBState) (row : CouponRow) : CouponModel :=
  let config :=
    (db1.tenants.find? (fun t => t.tenant_id == row.tenant_id)).map (fun t => t.config)
  let language := normalize_language (config.bind (fun c => c.language))
  match extract_threshold_from_coupon_id row.coupon_id with
  | some threshold =>
    let icon :=
      match db1.reward_rules.find?
        (fun r => r.tenant_id == row.tenant_id && r.threshold == threshold) with
      | some r => r.icon
      | none => none
    { id := row.coupon_id, tenantId := row.tenant_id, title := row.title,
      description := some (coupon_description_for_threshold threshold language),
      used := row.used, icon := icon }
  | none =>
    { id := row.coupon_id, tenantId := row.tenant_id, title := row.title,
      description := some row.description, used := row.used, icon := none }

/-- `mark_coupon_used` (`PATCH /api/users/me/coupons/{coupon_id}/use`):
`UPDATE user_coupons SET used = TRUE WHERE user_id = %s AND coupon_id = %s
RETURNING ...`; 404 when no row matched; otherwise the first returned row is
serialized with description/icon recomputed from the current rule. -/
def mark_coupon_used (db : DBState) (user_id : Nat) (coupon_id : String) :
    Except (Nat × String) CouponModel × DBState :=
  let matched := db.user_coupons.filter
    (fun c => c.user_id == user_id && c.coupon_id == coupon_id)
  let updated := matched.map (fun c => { c with used := true })
  match updated with
  | [] => (.error (404, "Coupon not found"), db)
  | row :: _ =>
    let newCoupons := db.user_coupons.map
      (fun c => if c.user_id == user_id && c.coupon_id == coupon_id then
        { c with used := true } else c)
    let db1 : DBState := { db with user_coupons := newCoupons }
    (.ok (mark_result db1 row), db1)

/-- The per-row update of an administrative reward-rule label edit
(`reward_rules` is managed by the tenant-administration flows). -/
def rule_label_fn (tenant_id : String) (threshold : Nat) (label : String) :
    RuleRow → RuleRow :=
  fun r => if r.tenant_id == tenant_id && r.threshold == threshold then
    { r with label := label } else r

/-- An administrative edit of a reward rule's label applied to the table. -/
def set_rule_label (db : DBState) (tenant_id : String) (threshold : Nat)
    (label : String) : DBState :=
  { db with reward_rules := db.reward_rules.map (rule_label_fn tenant_id threshold label) }

/-- The per-row update of an administrative reward-rule icon edit. -/
def rule_icon_fn (tenant_id : String) (threshold : Nat) (icon : Option String) :
    RuleRow → RuleRow :=
  fun r => if r.tenant_id == tenant_id && r.threshold == threshold then
    { r with icon := icon } else r

/-- An administrative edit of a reward rule's icon applied to the table. -/
def set_rule_icon (db : DBState) (tenant_id : String) (threshold : Nat)
    (icon : Option String) : DBState :=
  { db with reward_rules := db.reward_rules.map (rule_icon_fn tenant_id threshold icon) }

/-! ## Sequences of operations (for the cached-aggregate invariant) -/

/-- One sequentially executed core operation.  `recordStamp`'s last argument
injects the ledger-insert uniqueness-violation failure (its rollback path);
`register` models `register_user`'s `_ensure_user_progress` call after the
user row insert (the `users` table itself is outside the core model);
`getProgress` models the read endpoint's lazy-init upsert. -/
inductive Op where
  | recordStamp (user_id : Nat) (tenant_id store_id : String) (now : Int)
      (insert_hits_unique_violation : Bool) : Op
  | getProgress (user_id : Nat) (tenant_id : String) : Op
  | register (user_id : Nat) (tenant_id : String) : Op
  | markCouponUsed (user_id : Nat) (coupon_id : String) : Op
deriving Repr, DecidableEq

/-- The state left behind by one operation. -/
def applyOp (db : DBState) : Op → DBState
  | .recordStamp u t s now race => (record_stamp db u t s now race).2
  | .getProgress u t => (read_user_progress db u t).2
  | .register u t => ensure_user_progress db u t
  | .markCouponUsed u c => (mark_coupon_used db u c).2

/-- The state after a finite sequence of sequentially executed operations. -/
def applyOps (ops : List Op) (db : DBState) : DBState :=
  ops.foldl applyOp db

/-- `progress_stamps` on a bare `user_progress` table. -/
def progressStampsL (p : List ProgressRow) (u : Nat) : Nat :=
  match p.find? (fun r => r.user_id == u) with
  | some r => r.stamps
  | none => 0

/-- `stampCount` on a bare `user_store_stamps` table. -/
def stampCountL (s : List StampRow) (u : Nat) : Nat :=
  (s.filter (fun r => r.user_id == u)).length

/-- §3's `ProgressCounter` invariant: every stored `user_progress.stamps`
value equals the user's `user_store_stamps` row count, and a user with no
progress row has no ledger rows (so the defaulted read is also the count). -/
def StampsInvariant (db : DBState) : Prop :=
  ∀ u : Nat,
    progressStampsL db.user_progress u = stampCountL db.user_store_stamps u ∧
      ∀ r ∈ db.user_progress, r.user_id = u →
        r.stamps = stampCountL db.user_store_stamps u

/-! ## Shared lemmas -/

/-- `find?` commutes with a map that does not change the predicate's value. -/
theorem find?_map_pred {α : Type} (f : α → α) (p : α → Bool)
    (hf : ∀ a, p (f a) = p a) (l : List α) :
    (l.map f).find? p = (l.find? p).map f := by
  induction l with
  | nil => rfl
  | cons a l ih =>
    simp only [List.map_cons, List.find?_cons, hf a]
    cases h : p a <;> simp [h, ih]

/-- `filter` commutes with a map that does not change the predicate's value. -/
theorem filter_map_pred {α : Type} (f : α → α) (p : α → Bool)
    (hf : ∀ a, p (f a) = p a) (l : List α) :
    (l.map f).filter p = (l.filter p).map f := by
  induction l with
  | nil => rfl
  | cons a l ih =>
    simp only [List.map_cons, List.filter_cons, hf a]
    cases h : p a <;> simp [h, ih]

/-- `any` is unchanged by a map that does not change the predicate's value. -/
theorem any_map_pred {α : Type} (f : α → α) (p : α → Bool)
    (hf : ∀ a, p (f a) = p a) (l : List α) :
    (l.map f).any p = l.any p := by
  induction l with
  | nil => rfl
  | cons a l ih => simp only [List.map_cons, List.any_cons, hf a, ih]

/-- A list occurs in any surrounding of itself. -/
theorem middle_isInfix {α : Type} (x m y : List α) : m <:+: x ++ m ++ y :=
  ⟨x, y, by simp⟩

/-- Filtering the surroundings keeps an occurrence whose characters all
satisfy the filter. -/
theorem middle_isInfix_filter {α : Type} (p : α → Bool) (x m y : List α)
    (hm : ∀ c ∈ m, p c) : m <:+: (x ++ m ++ y).filter p := by
  rw [List.filter_append, List.filter_append, List.filter_eq_self.mpr hm]
  exact middle_isInfix _ _ _

/-! ## Claim C5 — value binding in `generate_query` -/

/-- C5: the source `QueryComposer.generate_query` does NOT bind values as
parameters.  At these concrete inputs its output is a single SQL string with
the condition value (`'alice'`) and the data values (`'Free coffee'`, `7`,
and the bound tenant `'t1'`) interpolated directly into the statement text;
the function's return type carries no parameter list at all. -/
theorem generate_query_interpolates_values :
  generate_query (some "t1") none
      ⟨"UserCoupons", ["id", "user_id", "tenant_id", "title"],
        [("title", SqlValue.vstr "Free coffee"), ("user_id", SqlValue.vint 7)]⟩
      [] "insert" "" none none none =
    .ok "INSERT INTO user_coupons (title, user_id, tenant_id) VALUES ('Free coffee', 7, 't1') RETURNING *;" ∧
  generate_query (some "t1") none
      ⟨"Stores", ["store_id", "tenant_id", "name"], []⟩
      [] "select" "" (some [("name", SqlValue.vstr "alice")]) none none =
    .ok "SELECT stores.store_id, stores.tenant_id, stores.name FROM stores WHERE name = 'alice' AND stores.tenant_id = 't1';" := by
  constructor <;> rfl

/-! ## Claim C9 — explicit offset parsing range -/

/-- C9: `_tzinfo_from_offset` (and the identical range check in
`_coerce_timezone_to_offset`) accepts `UTC-13:00` and even `UTC-14:00` —
the `hours > 14 or (hours == 14 and minutes != 0)` check ignores the sign,
so the claimed lower bound of −12:00 is not enforced; only the upper
magnitude 14 is.  This contradicts the code's own validation message
("within -12:00 to +14:00", tenants.py). -/
theorem tzinfo_from_offset_accepts_minus_13 :
  tzinfo_from_offset (some "UTC-13:00") = some (-780) ∧
  tzinfo_from_offset (some "UTC-14:00") = some (-840) ∧
  coerce_timezone_to_offset (some "UTC-13:00") (fun _ => none) = some "UTC-13:00" ∧
  tzinfo_from_offset (some "UTC+15:00") = none ∧
  tzinfo_from_offset (some "UTC+14:30") = none := by
  refine ⟨rfl, rfl, rfl, rfl, rfl⟩

/-! ## Claim C6 — update/delete precondition check -/

/-- C6 counterexample: with a bound tenant (`t1`), a tenant-scoped entity
(`tenant_id ∈ fields`) and no caller-supplied conditions, the source raises
the `ValueError` — the implicit tenant condition that would have been
applied does not count, because the emptiness check runs before the tenant
condition is appended. -/
theorem update_without_conditions_rejected_despite_tenant :
  generate_query (some "t1") none
      ⟨"Stores", ["store_id", "tenant_id", "name"], [("name", SqlValue.vstr "x")]⟩
      [] "update" "" none none none = .error "更新条件が指定されていません" ∧
  boundTenant (some "t1") = some "t1" ∧
  (["store_id", "tenant_id", "name"] : List String).contains "tenant_id" = true := by
  refine ⟨rfl, rfl, rfl⟩

/-- C6 amended: `generate_query` with `update`/`delete` fails with the
precondition `ValueError` if and only if the caller supplied no conditions —
regardless of the bound tenant id and of the implicit tenant condition,
which is appended only after the check. -/
theorem update_delete_fail_iff_no_caller_conditions
    (tenant_id schema : Option String) (dm : EntityModel) (rel : List EntityModel)
    (add : String) (conds : Option (List (String × SqlValue)))
    (join sel : Option String) :
    (isOkE (generate_query tenant_id schema dm rel "update" add conds join sel) = true ↔
      buildWhereClause conds ≠ "") ∧
    (isOkE (generate_query tenant_id schema dm rel "delete" add conds join sel) = true ↔
      buildWhereClause conds ≠ "") := by
  constructor <;>
  · rw [generate_query]
    simp only [reduceIte, String.reduceEq]
    split
    · rename_i hwc
      simp [isOkE, hwc]
    · rename_i hwc
      simp only [isOkE]
      tauto

/-! ## Claim C10 — timezone resolution order and fallbacks -/

/-- C10 counterexample: with the operator-supplied `DEFAULT_TIMEZONE` absent,
the process-start default of the stamp path (`_resolve_campaign_timezone`,
users.py) is the system local timezone — and `timezone.utc` when that is
unavailable — not the fixed fallback `UTC+09:00`. -/
theorem campaign_tz_fallback_is_not_utc9 :
  resolve_campaign_timezone none (fun _ => false) (some ResolvedTz.system) =
    ResolvedTz.system ∧
  resolve_campaign_timezone none (fun _ => false) none = ResolvedTz.offset 0 ∧
  ResolvedTz.system ≠ ResolvedTz.offset (9 * 60) ∧
  ResolvedTz.offset 0 ≠ ResolvedTz.offset (9 * 60) := by
  refine ⟨rfl, rfl, by decide, by decide⟩

/-- C10 amended: per-tenant resolution (`_resolve_timezone_from_config`)
tries the explicit offset, then the named-zone lookup, then the
process-start default, each invalid stage falling through; the
tenant-administration module's process-start default
(`_resolve_default_campaign_timezone`) falls back to `UTC+09:00` when the
operator default is absent or invalid; but the user/stamp module's
process-start default (`_resolve_campaign_timezone`) falls back to the
system local timezone and then to UTC. -/
theorem timezone_resolution_order
    (ct ct2 d : Option String) (zv : String → Bool) (ctz : ResolvedTz)
    (zo : String → Option Int) (lt : Option ResolvedTz) :
    (∀ m : Int, tzinfo_from_offset (pyOr ct (pyOr ct2 d)) = some m →
      resolve_timezone_from_config ct ct2 d zv ctz = .offset m) ∧
    (∀ v : String, tzinfo_from_offset (pyOr ct (pyOr ct2 d)) = none →
      pyOr ct (pyOr ct2 d) = some v → (v ≠ "" && zv v) = true →
      resolve_timezone_from_config ct ct2 d zv ctz = .named v) ∧
    (∀ v : String, tzinfo_from_offset (pyOr ct (pyOr ct2 d)) = none →
      pyOr ct (pyOr ct2 d) = some v → (v ≠ "" && zv v) = false →
      resolve_timezone_from_config ct ct2 d zv ctz = ctz) ∧
    (pyOr ct (pyOr ct2 d) = none → resolve_timezone_from_config ct ct2 d zv ctz = ctz) ∧
    (coerce_timezone_to_offset d zo = none →
      resolve_default_campaign_timezone d zo = "UTC+09:00") ∧
    (tzinfo_from_offset d = none →
      (∀ v : String, d = some v → (v ≠ "" && zv v) = false) →
      resolve_campaign_timezone d zv lt =
        (match lt with | some l => l | none => ResolvedTz.offset 0)) := by
  refine ⟨?_, ?_, ?_, ?_, ?_, ?_⟩
  · intro m hm
    rw [resolve_timezone_from_config, hm]
  · intro v h0 hv hz
    rw [resolve_timezone_from_config, h0, hv]
    show (if (decide (v ≠ "") && zv v) = true then ResolvedTz.named v else ctz) =
      ResolvedTz.named v
    rw [if_pos hz]
  · intro v h0 hv hz
    rw [resolve_timezone_from_config, h0, hv]
    show (if (decide (v ≠ "") && zv v) = true then ResolvedTz.named v else ctz) = ctz
    rw [if_neg (by rw [hz]; simp)]
  · intro h0
    rw [resolve_timezone_from_config, h0]
    rfl
  · intro hc
    rw [resolve_default_campaign_timezone, hc]
  · intro h0 hz
    unfold resolve_campaign_timezone
    rw [h0]
    cases d with
    | none => rfl
    | some v =>
      have hzz := hz v rfl
      show (if (decide (v ≠ "") && zv v) = true then ResolvedTz.named v
            else match lt with | some l => l | none => ResolvedTz.offset 0) =
        match lt with | some l => l | none => ResolvedTz.offset 0
      rw [if_neg (by rw [hzz]; simp)]

/-- Witness for the amended C10 theorem: each conjunct applied at a concrete
input where its hypotheses hold. -/
theorem timezone_resolution_order_witness :
  resolve_timezone_from_config (some "UTC+05:00") none none (fun _ => true)
      ResolvedTz.system = ResolvedTz.offset 300 ∧
  resolve_timezone_from_config (some "Asia/Tokyo") none none (fun _ => true)
      ResolvedTz.system = ResolvedTz.named "Asia/Tokyo" ∧
  resolve_timezone_from_config (some "Bad/Zone") none none (fun _ => false)
      ResolvedTz.system = ResolvedTz.system ∧
  resolve_timezone_from_config none none none (fun _ => false)
      ResolvedTz.system = ResolvedTz.system ∧
  resolve_default_campaign_timezone (some "Bad/Zone") (fun _ => none) = "UTC+09:00" ∧
  resolve_campaign_timezone (some "Bad/Zone") (fun _ => false) none =
    ResolvedTz.offset 0 :=
  ⟨(timezone_resolution_order (some "UTC+05:00") none none (fun _ => true)
      ResolvedTz.system (fun _ => none) none).1 300 (by rfl),
   (timezone_resolution_order (some "Asia/Tokyo") none none (fun _ => true)
      ResolvedTz.system (fun _ => none) none).2.1 "Asia/Tokyo" (by rfl) (by rfl) (by rfl),
   (timezone_resolution_order (some "Bad/Zone") none none (fun _ => false)
      ResolvedTz.system (fun _ => none) none).2.2.1 "Bad/Zone" (by rfl) (by rfl) (by rfl),
   (timezone_resolution_order none none none (fun _ => false)
      ResolvedTz.system (fun _ => none) none).2.2.2.1 (by rfl),
   (timezone_resolution_order none none (some "Bad/Zone") (fun _ => false)
      ResolvedTz.system (fun _ => none) none).2.2.2.2.1 (by rfl),
   (timezone_resolution_order none none (some "Bad/Zone") (fun _ => false)
      ResolvedTz.system (fun _ => none) none).2.2.2.2.2 (by rfl)
      (by intro v hv; cases hv; rfl)⟩

/-! ## Claim C3 â unconditional tenant scoping -/

/-- The qualification prefix the source uses for the implicit tenant
condition: `f"{table_name}."` in the select branch, none in update/delete. -/
def qualOf (sqltype : String) (schema : Option String) (dm : EntityModel) : String :=
  if sqltype = "select" then tableNameOf schema dm.className ++ "." else ""

/-- The tenant-scoped where clause is never the empty string. -/
theorem tenantScopedWhere_ne_empty (qual : String)
    (conds : Option (List (String × SqlValue))) (t : String) :
    tenantScopedWhere qual conds t ≠ "" := by
  intro hc
  have hd := congrArg String.data hc
  rw [tenantScopedWhere] at hd
  split at hd <;> simp [String.data_append] at hd

/-- An occurrence survives prefixing. -/
theorem occurs_cons_left {m l : List Char} (x : List Char) (h : m <:+: l) :
    m <:+: x ++ l := by
  obtain ⟨s, t, rfl⟩ := h
  exact ⟨x ++ s, t, by simp⟩

/-- A list occurs at the front of an append. -/
theorem occurs_self_append (m y : List Char) : m <:+: m ++ y :=
  ⟨[], y, by simp⟩

/-- Filtering keeps an occurrence whose members all satisfy the filter. -/
theorem occurs_filter_of_occurs (p : Char → Bool) {m l : List Char}
    (hm : ∀ c ∈ m, p c = true) (h : m <:+: l) : m <:+: l.filter p := by
  obtain ⟨s, t, rfl⟩ := h
  rw [List.filter_append, List.filter_append, List.filter_eq_self.mpr hm]
  exact ⟨_, _, rfl⟩

/-- C3: for a tenant-scoped entity and a composer bound to a non-empty
tenant id, every successfully generated select, update or delete statement
contains the tenant-scoped where clause â the caller-supplied conditions
with `tenant_id = '<bound tenant>'` appended by ` AND ` (or a fresh
` WHERE tenant_id = ...` when the caller supplied none) â whatever the
caller passes for conditions, raw predicate fragment, join fragment or
projection.  (The newline hypothesis reflects the select branch's
`replace("\n", "")`, which strips newlines from the final text.) -/
theorem generate_query_always_tenant_scoped
    (tenant_id schema : Option String) (dm : EntityModel) (rel : List EntityModel)
    (sqltype add : String) (conds : Option (List (String × SqlValue)))
    (join sel : Option String) (t q : String)
    (hb : boundTenant tenant_id = some t)
    (hf : dm.fields.contains "tenant_id" = true)
    (hs : sqltype = "select" ∨ sqltype = "update" ∨ sqltype = "delete")
    (hnl : '\n' ∉ (tenantScopedWhere (qualOf sqltype schema dm) conds t).data)
    (hq : generate_query tenant_id schema dm rel sqltype add conds join sel = .ok q) :
    (tenantScopedWhere (qualOf sqltype schema dm) conds t).data <:+: q.data := by
  have hnl' : ∀ c ∈ (tenantScopedWhere (qualOf sqltype schema dm) conds t).data,
      decide (c ≠ '\n') = true := by
    intro c hc
    simp only [decide_eq_true_eq, ne_eq]
    intro h
    subst h
    exact hnl hc
  rcases hs with h | h | h
  · subst h
    simp only [qualOf, reduceIte] at hnl' ⊢
    rw [generate_query] at hq
    simp only [String.reduceEq, reduceIte, hb, hf, if_true] at hq
    by_cases ha : add = ""
    · subst ha
      simp only [ne_eq, not_true_eq_false, if_false, reduceIte] at hq
      rw [Except.ok.injEq] at hq
      subst hq
      simp only [removeNewlines]
      refine occurs_filter_of_occurs _ hnl' ?_
      simp only [String.data_append, List.append_assoc]
      repeat first
        | exact occurs_self_append _ _
        | exact occurs_cons_left _ (by exact occurs_self_append _ _)
        | apply occurs_cons_left
    · simp only [ne_eq, ha, not_false_eq_true, if_true, reduceIte] at hq
      by_cases hw : startsWithWhereToken add
      · simp only [hw, if_true, reduceIte] at hq
        rw [if_pos (tenantScopedWhere_ne_empty _ _ _)] at hq
        rw [Except.ok.injEq] at hq
        subst hq
        simp only [removeNewlines]
        refine occurs_filter_of_occurs _ hnl' ?_
        simp only [String.data_append, List.append_assoc]
        repeat first
          | exact occurs_self_append _ _
          | apply occurs_cons_left
      · simp only [hw, if_false, Bool.false_eq_true, reduceIte] at hq
        rw [Except.ok.injEq] at hq
        subst hq
        simp only [removeNewlines]
        refine occurs_filter_of_occurs _ hnl' ?_
        simp only [String.data_append, List.append_assoc]
        repeat first
          | exact occurs_self_append _ _
          | apply occurs_cons_left
  · subst h
    simp only [qualOf, String.reduceEq, reduceIte] at hnl' ⊢
    rw [generate_query] at hq
    simp only [String.reduceEq, reduceIte, hb, hf, if_true] at hq
    split at hq
    · exact absurd hq (by simp)
    · rw [Except.ok.injEq] at hq
      subst hq
      simp only [String.data_append, List.append_assoc]
      repeat first
        | exact occurs_self_append _ _
        | apply occurs_cons_left
  · subst h
    simp only [qualOf, String.reduceEq, reduceIte] at hnl' ⊢
    rw [generate_query] at hq
    simp only [String.reduceEq, reduceIte, hb, hf, if_true] at hq
    split at hq
    · exact absurd hq (by simp)
    · rw [Except.ok.injEq] at hq
      subst hq
      simp only [String.data_append, List.append_assoc]
      repeat first
        | exact occurs_self_append _ _
        | apply occurs_cons_left

/-- Witness for C3 at a concrete call. -/
theorem generate_query_always_tenant_scoped_witness :
    (tenantScopedWhere
        (qualOf "select" none ⟨"Stores", ["store_id", "tenant_id", "name"], []⟩)
        (some [("name", SqlValue.vstr "alice")]) "t1").data <:+:
      ("SELECT stores.store_id, stores.tenant_id, stores.name FROM stores WHERE name = 'alice' AND stores.tenant_id = 't1';").data :=
  generate_query_always_tenant_scoped (some "t1") none
    ⟨"Stores", ["store_id", "tenant_id", "name"], []⟩ [] "select" ""
    (some [("name", SqlValue.vstr "alice")]) none none "t1" _
    rfl (by rfl) (Or.inl rfl) (by decide) rfl

/-! ## Concrete fixtures -/

/-- A tenant `t1` with no campaign boundaries (window always open) and two
stores; no users have stamped yet. -/
def dbOpen : DBState :=
  ⟨[⟨"t1", ⟨none, none, none⟩⟩],
   [⟨"t1", "s1", "Store One"⟩, ⟨"t1", "s2", "Store Two"⟩],
   [], [], [⟨"t1", 2, "Free coffee", some "icon1"⟩], []⟩

/-! ## Claim C4 — the concurrent-duplicate race is NOT reclassified -/

/-- C4: when the `user_store_stamps` insert hits the `(user_id, store_id)`
uniqueness violation (a concurrent identical attempt inserted first, after
this transaction's `SELECT 1` check saw no row), `record_stamp` rolls the
loser back and raises the generic `HTTPException(500, "Failed to record
stamp")` — it is NOT reclassified as `already_stamped`.  The winner's
transaction (same snapshot, no violation) commits exactly one ledger row and
one counter increment, and the loser leaves the state untouched. -/
theorem concurrent_duplicate_insert_surfaces_generic_500 :
  (record_stamp dbOpen 1 "t1" "s1" 0 true).1 =
    RecordResult.err 500 "Failed to record stamp" ∧
  (record_stamp dbOpen 1 "t1" "s1" 0 true).2 = dbOpen ∧
  (∃ r : StampResponse, (record_stamp dbOpen 1 "t1" "s1" 0 false).1 =
    RecordResult.resp r ∧ r.status = StampStatus.stamped) ∧
  (record_stamp dbOpen 1 "t1" "s1" 0 false).2.user_store_stamps =
    [⟨1, "t1", "s1"⟩] ∧
  (record_stamp dbOpen 1 "t1" "s1" 0 false).2.user_progress = [⟨1, "t1", 1⟩] := by
  refine ⟨rfl, rfl, ⟨_, rfl, rfl⟩, rfl, rfl⟩

/-! ## Claim C8 — mark-coupon-used contract -/

/-- Mapping a pointwise-idempotent function twice is mapping it once. -/
theorem map_idem {α : Type} (f : α → α) (hf : ∀ a, f (f a) = f a) (l : List α) :
    (l.map f).map f = l.map f := by
  induction l with
  | nil => rfl
  | cons a l ih => simp only [List.map_cons, hf a, ih]

/-- The row update `mark_coupon_used`'s SQL applies (proof abbreviation). -/
def set_used_fn (u : Nat) (cid : String) : CouponRow → CouponRow :=
  fun c => if c.user_id == u && c.coupon_id == cid then { c with used := true } else c

/-- The state `mark_coupon_used` leaves when at least one row matched
(proof abbreviation; definitionally the `db1` of `mark_coupon_used`). -/
def mark_state (db : DBState) (u : Nat) (cid : String) : DBState :=
  { db with user_coupons := db.user_coupons.map (set_used_fn u cid) }

/-- The serialized result's `used` flag is the returned row's. -/
theorem mark_result_used (db1 : DBState) (row : CouponRow) :
    (mark_result db1 row).used = row.used := by
  unfold mark_result
  split <;> rfl

/-- The serialized result's `id` is the returned row's coupon id. -/
theorem mark_result_id (db1 : DBState) (row : CouponRow) :
    (mark_result db1 row).id = row.coupon_id := by
  unfold mark_result
  split <;> rfl

/-- C8: `mark_coupon_used` succeeds with `used = true` and the requested id
exactly when a coupon with that id exists for the user; re-invoking it on the
resulting state is a no-op that still succeeds with `used = true`; and it
fails with the 404 "Coupon not found" error, mutating nothing, exactly when
no such coupon exists. -/
theorem mark_coupon_used_spec (db : DBState) (u : Nat) (cid : String) :
    (db.user_coupons.any (fun c => c.user_id == u && c.coupon_id == cid) = true →
      ∃ cm : CouponModel,
        (mark_coupon_used db u cid).1 = .ok cm ∧ cm.used = true ∧ cm.id = cid ∧
        (mark_coupon_used (mark_coupon_used db u cid).2 u cid).2 =
          (mark_coupon_used db u cid).2 ∧
        ∃ cm2 : CouponModel,
          (mark_coupon_used (mark_coupon_used db u cid).2 u cid).1 = .ok cm2 ∧
          cm2.used = true) ∧
    (db.user_coupons.any (fun c => c.user_id == u && c.coupon_id == cid) = false →
      (mark_coupon_used db u cid).1 = .error (404, "Coupon not found") ∧
      (mark_coupon_used db u cid).2 = db) := by
  have hpf : ∀ a : CouponRow,
      ((set_used_fn u cid a).user_id == u && (set_used_fn u cid a).coupon_id == cid) =
        (a.user_id == u && a.coupon_id == cid) := by
    intro a
    by_cases hpa : (a.user_id == u && a.coupon_id == cid) = true <;>
      simp [set_used_fn, hpa]
  have hff : ∀ a : CouponRow, set_used_fn u cid (set_used_fn u cid a) = set_used_fn u cid a := by
    intro a
    by_cases hpa : (a.user_id == u && a.coupon_id == cid) = true <;>
      simp [set_used_fn, hpa]
  constructor
  · intro h
    cases e : db.user_coupons.filter (fun c => c.user_id == u && c.coupon_id == cid) with
    | nil =>
      rw [List.filter_eq_nil_iff] at e
      rw [List.any_eq_true] at h
      obtain ⟨x, hx, hpx⟩ := h
      exact absurd hpx (e x hx)
    | cons r rest =>
      have hr : r ∈ db.user_coupons.filter
          (fun c => c.user_id == u && c.coupon_id == cid) := by
        rw [e]; exact List.mem_cons_self r rest
      have hpr := (List.mem_filter.mp hr).2
      have hcid : r.coupon_id = cid := eq_of_beq ((Bool.and_eq_true _ _).mp hpr).2
      have h1 : mark_coupon_used db u cid =
          (Except.ok (mark_result (mark_state db u cid) { r with used := true }),
            mark_state db u cid) := by
        rw [mark_coupon_used, e]
        rfl
      have hfilter2 : (mark_state db u cid).user_coupons.filter
          (fun c => c.user_id == u && c.coupon_id == cid) =
          { r with used := true } :: rest.map (set_used_fn u cid) := by
        show (db.user_coupons.map (set_used_fn u cid)).filter _ = _
        rw [filter_map_pred (set_used_fn u cid)
          (fun c : CouponRow => c.user_id == u && c.coupon_id == cid) hpf db.user_coupons]
        rw [e]
        simp only [List.map_cons]
        rw [show set_used_fn u cid r = { r with used := true } by
          simp [set_used_fn, hpr]]
      have h2 : mark_coupon_used (mark_state db u cid) u cid =
          (Except.ok (mark_result (mark_state (mark_state db u cid) u cid)
              { ({ r with used := true } : CouponRow) with used := true }),
            mark_state (mark_state db u cid) u cid) := by
        rw [mark_coupon_used, hfilter2]
        rfl
      have hstate : mark_state (mark_state db u cid) u cid = mark_state db u cid := by
        show ({ db with user_coupons :=
          (db.user_coupons.map (set_used_fn u cid)).map (set_used_fn u cid) } : DBState) = _
        rw [map_idem (set_used_fn u cid) hff db.user_coupons]
        rfl
      refine ⟨_, by rw [h1], by rw [mark_result_used], by rw [mark_result_id]; exact hcid,
        ?_, ?_⟩
      · rw [h1]
        show (mark_coupon_used (mark_state db u cid) u cid).2 = mark_state db u cid
        rw [h2, hstate]
      · rw [h1]
        show ∃ cm2, (mark_coupon_used (mark_state db u cid) u cid).1 = .ok cm2 ∧
          cm2.used = true
        exact ⟨_, by rw [h2], by rw [mark_result_used]⟩
  · intro h
    have e : db.user_coupons.filter (fun c => c.user_id == u && c.coupon_id == cid) = [] := by
      rw [List.filter_eq_nil_iff]
      rw [List.any_eq_false] at h
      exact h
    rw [mark_coupon_used, e]
    exact ⟨rfl, rfl⟩

/-- Witness for C8: both implications applied at concrete states. -/
theorem mark_coupon_used_spec_witness :
  (∃ cm : CouponModel,
    (mark_coupon_used
        ⟨[], [], [], [], [], [⟨1, "t1", "c1", "Gift", "desc", false⟩]⟩ 1 "c1").1 = .ok cm ∧
    cm.used = true ∧ cm.id = "c1" ∧
    (mark_coupon_used
        (mark_coupon_used
          ⟨[], [], [], [], [], [⟨1, "t1", "c1", "Gift", "desc", false⟩]⟩ 1 "c1").2 1 "c1").2 =
      (mark_coupon_used
        ⟨[], [], [], [], [], [⟨1, "t1", "c1", "Gift", "desc", false⟩]⟩ 1 "c1").2 ∧
    ∃ cm2 : CouponModel,
      (mark_coupon_used
          (mark_coupon_used
            ⟨[], [], [], [], [], [⟨1, "t1", "c1", "Gift", "desc", false⟩]⟩ 1 "c1").2 1 "c1").1 =
        .ok cm2 ∧ cm2.used = true) ∧
  ((mark_coupon_used ⟨[], [], [], [], [], []⟩ 1 "nope").1 =
      .error (404, "Coupon not found") ∧
    (mark_coupon_used ⟨[], [], [], [], [], []⟩ 1 "nope").2 = ⟨[], [], [], [], [], []⟩) :=
  ⟨(mark_coupon_used_spec ⟨[], [], [], [], [], [⟨1, "t1", "c1", "Gift", "desc", false⟩]⟩
      1 "c1").1 (by decide),
   (mark_coupon_used_spec ⟨[], [], [], [], [], []⟩ 1 "nope").2 (by decide)⟩

/-! ## Claim C7 — rule edits vs. progress reads -/

/-- Dict-assignment lookup: the inserted key reads the new value, other keys
are untouched. -/
theorem iconMapGet_insert (m : List (Nat × Option String)) (t : Nat)
    (v : Option String) (k : Nat) :
    iconMapGet (iconMapInsert m t v) k = if k = t then v else iconMapGet m k := by
  unfold iconMapInsert
  by_cases hm : m.any (fun p => p.1 == t) = true
  · rw [if_pos hm]
    by_cases hk : k = t
    · subst hk
      unfold iconMapGet
      rw [find?_map_pred (fun p => if p.1 == k then (k, v) else p) (fun p => p.1 == k)
        (by intro a; by_cases ha : (a.1 == k) = true <;> simp [ha]) m]
      rw [List.any_eq_true] at hm
      obtain ⟨x, hx, hpx⟩ := hm
      cases hf : m.find? (fun p => p.1 == k) with
      | none =>
        rw [List.find?_eq_none] at hf
        exact absurd hpx (hf x hx)
      | some y =>
        have hy1 := List.find?_some hf
        simp only [] at hy1
        simp [eq_of_beq hy1]
    · unfold iconMapGet
      rw [find?_map_pred (fun p => if p.1 == t then (t, v) else p) (fun p => p.1 == k)
        (by
          intro a
          by_cases ha : (a.1 == t) = true
          · have : a.1 = t := eq_of_beq ha
            simp [ha, this, fun h : t = k => hk h.symm]
          · simp [ha]) m]
      rw [if_neg hk]
      cases hf : m.find? (fun p => p.1 == k) with
      | none => rfl
      | some y =>
        have hy1 := List.find?_some hf
        simp only [] at hy1
        have hyk := eq_of_beq hy1
        have hyt : ¬ y.1 = t := fun h => hk (by rw [← hyk, h])
        simp [hyt]
  · rw [if_neg hm]
    unfold iconMapGet
    rw [List.find?_append]
    by_cases hk : k = t
    · subst hk
      have hnone : m.find? (fun p => p.1 == k) = none := by
        rw [List.find?_eq_none]
        intro x hx h
        exact hm (List.any_eq_true.mpr ⟨x, hx, h⟩)
      simp [hnone, List.find?_cons]
    · have htk : (t == k) = false := by
        rw [beq_eq_false_iff_ne]
        exact fun h => hk h.symm
      cases hf : m.find? (fun p => p.1 == k) with
      | none => simp [hf, List.find?_cons, htk, hk]
      | some y => simp [hf, hk]

/-- `iconMapGet` of the dict built by the fold: the last inserted row for a
threshold wins, else the accumulator's value. -/
theorem iconMapGet_foldl (l : List RuleRow) (k : Nat) :
    ∀ acc : List (Nat × Option String),
      iconMapGet (l.foldl (fun m r => iconMapInsert m r.threshold r.icon) acc) k =
        match l.reverse.find? (fun r => r.threshold == k) with
        | some r => r.icon
        | none => iconMapGet acc k := by
  induction l with
  | nil => intro acc; rfl
  | cons a l ih =>
    intro acc
    simp only [List.foldl_cons, List.reverse_cons]
    rw [ih (iconMapInsert acc a.threshold a.icon)]
    rw [List.find?_append]
    cases hf : l.reverse.find? (fun r => r.threshold == k) with
    | some r => simp [hf]
    | none =>
      simp only [hf, Option.none_or]
      rw [iconMapGet_insert]
      cases hak : (a.threshold == k) with
      | true =>
        have : k = a.threshold := (eq_of_beq hak).symm
        simp [List.find?_cons, hak, this]
      | false =>
        have : ¬ k = a.threshold := by
          intro h
          rw [h] at hak
          simp at hak
        simp [List.find?_cons, hak, this]

/-- `iconMapGet` of a built icon map: the last rule row with the threshold. -/
theorem iconMapGet_build (l : List RuleRow) (k : Nat) :
    iconMapGet (build_icon_map l) k =
      match l.reverse.find? (fun r => r.threshold == k) with
      | some r => r.icon
      | none => none := by
  unfold build_icon_map
  rw [iconMapGet_foldl]
  cases l.reverse.find? (fun r => r.threshold == k) <;> rfl

/-- Folding the icon-map build over rows with the same thresholds and icons
gives the same dict. -/
theorem build_icon_map_congr (g : RuleRow → RuleRow)
    (ht : ∀ r, (g r).threshold = r.threshold) (hi : ∀ r, (g r).icon = r.icon) :
    ∀ l : List RuleRow, build_icon_map (l.map g) = build_icon_map l := by
  have aux : ∀ (l : List RuleRow) (acc : List (Nat × Option String)),
      (l.map g).foldl (fun m r => iconMapInsert m r.threshold r.icon) acc =
        l.foldl (fun m r => iconMapInsert m r.threshold r.icon) acc := by
    intro l
    induction l with
    | nil => intro acc; rfl
    | cons a l ih =>
      intro acc
      simp only [List.map_cons, List.foldl_cons, ht a, hi a]
      exact ih _
  intro l
  exact aux l []

/-- `rule_icon_fn` preserves tenant ids. -/
theorem rule_icon_fn_tenant (T : String) (thr : Nat) (ic : Option String) (r : RuleRow) :
    (rule_icon_fn T thr ic r).tenant_id = r.tenant_id := by
  unfold rule_icon_fn
  split <;> rfl

/-- `rule_icon_fn` preserves thresholds. -/
theorem rule_icon_fn_threshold (T : String) (thr : Nat) (ic : Option String) (r : RuleRow) :
    (rule_icon_fn T thr ic r).threshold = r.threshold := by
  unfold rule_icon_fn
  split <;> rfl

/-- C7 counterexample: a concrete state with one issued rule coupon
(threshold 3) where editing the rule's LABEL leaves the entire
`GetProgress` output — its `description` included — unchanged; the
description is recomputed from the threshold and language, not from the
label, so the claimed label→description dependence does not exist. -/
theorem rule_label_change_leaves_description_unchanged :
  load_user_progress
      (set_rule_label
        ⟨[⟨"t1", ⟨none, none, none⟩⟩], [], [⟨1, "t1", 3⟩], [],
         [⟨"t1", 3, "Free coffee", some "icon1"⟩],
         [⟨1, "t1", "tenant-t1-rule-3", "Free coffee", "3個達成で獲得したクーポン", false⟩]⟩
        "t1" 3 "Brand new label") 1 "t1" =
    load_user_progress
      ⟨[⟨"t1", ⟨none, none, none⟩⟩], [], [⟨1, "t1", 3⟩], [],
       [⟨"t1", 3, "Free coffee", some "icon1"⟩],
       [⟨1, "t1", "tenant-t1-rule-3", "Free coffee", "3個達成で獲得したクーポン", false⟩]⟩
      1 "t1" ∧
  (set_rule_label
      ⟨[⟨"t1", ⟨none, none, none⟩⟩], [], [⟨1, "t1", 3⟩], [],
       [⟨"t1", 3, "Free coffee", some "icon1"⟩],
       [⟨1, "t1", "tenant-t1-rule-3", "Free coffee", "3個達成で獲得したクーポン", false⟩]⟩
      "t1" 3 "Brand new label").reward_rules ≠
    [⟨"t1", 3, "Free coffee", some "icon1"⟩] ∧
  (load_user_progress
      ⟨[⟨"t1", ⟨none, none, none⟩⟩], [], [⟨1, "t1", 3⟩], [],
       [⟨"t1", 3, "Free coffee", some "icon1"⟩],
       [⟨1, "t1", "tenant-t1-rule-3", "Free coffee", "3個達成で獲得したクーポン", false⟩]⟩
      1 "t1").coupons =
    [{ id := "tenant-t1-rule-3", tenantId := "t1", title := "Free coffee",
       description := some "3個達成で獲得したクーポン", used := false,
       icon := some "icon1" }] := by
  refine ⟨by decide, by decide, by decide⟩

/-- C7 amended: after issuance, editing a rule's LABEL changes nothing in
subsequent `GetProgress` reads (the `title` stays frozen to the issuance
label, and the `description` is recomputed from the coupon id's threshold
and the tenant's current language, not from the label); editing the rule's
ICON changes exactly the returned `icon` of the coupons whose id-encoded
threshold matches, leaving `title` and `description` unchanged. -/
theorem rule_edits_vs_progress_reads (db : DBState) (u : Nat) (tid T : String)
    (thr : Nat) (newLabel newIcon : String) :
    load_user_progress (set_rule_label db T thr newLabel) u tid =
      load_user_progress db u tid ∧
    (T = progress_tenant db u tid →
      (∃ r ∈ db.reward_rules, r.tenant_id = T ∧ r.threshold = thr) →
      (load_user_progress (set_rule_icon db T thr (some newIcon)) u tid).coupons =
        (load_user_progress db u tid).coupons.map
          (fun c => if extract_threshold_from_coupon_id c.id == some thr then
            { c with icon := some newIcon } else c)) := by
  constructor
  · have hfil : ∀ tenant : String,
        (db.reward_rules.map (rule_label_fn T thr newLabel)).filter
            (fun r => r.tenant_id == tenant) =
          (db.reward_rules.filter (fun r => r.tenant_id == tenant)).map
            (rule_label_fn T thr newLabel) := by
      intro tenant
      exact filter_map_pred (rule_label_fn T thr newLabel)
        (fun r => r.tenant_id == tenant)
        (by intro a; unfold rule_label_fn; split <;> rfl) db.reward_rules
    have hbuild := build_icon_map_congr (rule_label_fn T thr newLabel)
      (by intro r; unfold rule_label_fn; split <;> rfl)
      (by intro r; unfold rule_label_fn; split <;> rfl)
    unfold load_user_progress set_rule_label
    simp only [hfil, hbuild]
    rfl
  · intro hT hex
    have hgt : ∀ (tenant : String) (a : RuleRow),
        ((rule_icon_fn T thr (some newIcon) a).tenant_id == tenant) =
          (a.tenant_id == tenant) := by
      intro tenant a
      rw [rule_icon_fn_tenant]
    have hfil : ∀ tenant : String,
        (db.reward_rules.map (rule_icon_fn T thr (some newIcon))).filter
            (fun r => r.tenant_id == tenant) =
          (db.reward_rules.filter (fun r => r.tenant_id == tenant)).map
            (rule_icon_fn T thr (some newIcon)) := by
      intro tenant
      exact filter_map_pred (rule_icon_fn T thr (some newIcon))
        (fun r => r.tenant_id == tenant) (hgt tenant) db.reward_rules
    -- the rows the read consults, before the edit
    have key : ∀ k : Nat,
        iconMapGet (build_icon_map
          ((db.reward_rules.filter
            (fun r => r.tenant_id == progress_tenant db u tid)).map
              (rule_icon_fn T thr (some newIcon)))) k =
          (if k = thr then some newIcon
           else iconMapGet (build_icon_map
            (db.reward_rules.filter
              (fun r => r.tenant_id == progress_tenant db u tid))) k) := by
      intro k
      rw [iconMapGet_build, iconMapGet_build]
      rw [← List.map_reverse]
      rw [find?_map_pred (rule_icon_fn T thr (some newIcon))
        (fun r => r.threshold == k)
        (by intro a; simp only [rule_icon_fn_threshold])
        (db.reward_rules.filter
          (fun r => r.tenant_id == progress_tenant db u tid)).reverse]
      by_cases hk : k = thr
      · subst hk
        rw [if_pos rfl]
        obtain ⟨r, hrmem, hrT, hrthr⟩ := hex
        have hrin : r ∈ (db.reward_rules.filter
            (fun r => r.tenant_id == progress_tenant db u tid)).reverse := by
          rw [List.mem_reverse, List.mem_filter]
          exact ⟨hrmem, by rw [hrT, hT]; exact beq_self_eq_true _⟩
        cases hf : (db.reward_rules.filter
            (fun r => r.tenant_id == progress_tenant db u tid)).reverse.find?
              (fun r => r.threshold == k) with
        | none =>
          rw [List.find?_eq_none] at hf
          exact absurd (by rw [hrthr]; exact beq_self_eq_true _) (hf r hrin)
        | some r0 =>
          have hp0 := List.find?_some hf
          have hm0 := List.mem_of_find?_eq_some hf
          rw [List.mem_reverse, List.mem_filter] at hm0
          have ht0 : (r0.tenant_id == T) = true := by
            rw [hT]; exact hm0.2
          show (rule_icon_fn T k (some newIcon) r0).icon = some newIcon
          unfold rule_icon_fn
          rw [if_pos (by rw [ht0, hp0]; rfl)]
      · rw [if_neg hk]
        cases hf : (db.reward_rules.filter
            (fun r => r.tenant_id == progress_tenant db u tid)).reverse.find?
              (fun r => r.threshold == k) with
        | none => rfl
        | some r0 =>
          have hp0 := List.find?_some hf
          show (rule_icon_fn T thr (some newIcon) r0).icon = r0.icon
          unfold rule_icon_fn
          rw [if_neg (fun hcond => hk ((eq_of_beq hp0).symm.trans
            (eq_of_beq ((Bool.and_eq_true _ _).mp hcond).2)))]
    have hfun : ∀ c : CouponRow,
        render_coupon (config_language db (progress_tenant db u tid))
            (build_icon_map
              ((db.reward_rules.filter
                (fun r => r.tenant_id == progress_tenant db u tid)).map
                  (rule_icon_fn T thr (some newIcon)))) c =
          (fun cm : CouponModel =>
            if extract_threshold_from_coupon_id cm.id == some thr then
              { cm with icon := some newIcon } else cm)
            (render_coupon (config_language db (progress_tenant db u tid))
              (build_icon_map
                (db.reward_rules.filter
                  (fun r => r.tenant_id == progress_tenant db u tid))) c) := by
      intro c
      unfold render_coupon
      cases hext : extract_threshold_from_coupon_id c.coupon_id with
      | none => simp [hext]
      | some k =>
        by_cases hk : k = thr
        · subst hk
          simp only [hext, beq_self_eq_true, if_pos]
          rw [key k]
          simp
        · have : (some k == some thr) = false := by
            rw [beq_eq_false_iff_ne]
            intro h
            exact hk (Option.some.inj h)
          simp only [hext, this, Bool.false_eq_true, if_false]
          rw [key k, if_neg hk]
    unfold load_user_progress set_rule_icon
    simp only [List.map_map, hfil]
    exact List.map_eq_map_iff.mpr (fun c _ => hfun c)

/-- Witness for the amended C7 theorem at a concrete state. -/
theorem rule_edits_vs_progress_reads_witness :
  (load_user_progress
      (set_rule_icon
        ⟨[⟨"t1", ⟨none, none, none⟩⟩], [], [⟨1, "t1", 3⟩], [],
         [⟨"t1", 3, "Free coffee", some "icon1"⟩],
         [⟨1, "t1", "tenant-t1-rule-3", "Free coffee", "3個達成で獲得したクーポン", false⟩]⟩
        "t1" 3 (some "icon2")) 1 "t1").coupons =
    (load_user_progress
      ⟨[⟨"t1", ⟨none, none, none⟩⟩], [], [⟨1, "t1", 3⟩], [],
       [⟨"t1", 3, "Free coffee", some "icon1"⟩],
       [⟨1, "t1", "tenant-t1-rule-3", "Free coffee", "3個達成で獲得したクーポン", false⟩]⟩
      1 "t1").coupons.map
      (fun c => if extract_threshold_from_coupon_id c.id == some 3 then
        { c with icon := some "icon2" } else c) :=
  (rule_edits_vs_progress_reads
    ⟨[⟨"t1", ⟨none, none, none⟩⟩], [], [⟨1, "t1", 3⟩], [],
     [⟨"t1", 3, "Free coffee", some "icon1"⟩],
     [⟨1, "t1", "tenant-t1-rule-3", "Free coffee", "3個達成で獲得したクーポン", false⟩]⟩
    1 "t1" "t1" 3 "x" "icon2").2 (by decide)
    ⟨⟨"t1", 3, "Free coffee", some "icon1"⟩, by decide, rfl, rfl⟩

/-! ## Claim C1 — the cached stamp aggregate invariant -/

/-- Appending one ledger row bumps exactly its user's count. -/
theorem stampCountL_append (s : List StampRow) (u : Nat) (t S : String) (w : Nat) :
    stampCountL (s ++ [⟨u, t, S⟩]) w =
      if u = w then stampCountL s w + 1 else stampCountL s w := by
  unfold stampCountL
  rw [List.filter_append, List.length_append]
  by_cases huw : u = w
  · subst huw
    simp [List.filter_cons]
  · have : ((⟨u, t, S⟩ : StampRow).user_id == w) = false := by
      rw [beq_eq_false_iff_ne]
      exact huw
    simp [List.filter_cons, this, huw]

/-- The row-increment function leaves every user-id predicate unchanged. -/
theorem inc_fn_pred (u w : Nat) (a : ProgressRow) :
    ((if a.user_id == u then { a with stamps := a.stamps + 1 } else a).user_id == w) =
      (a.user_id == w) := by
  split <;> rfl

/-- The 0-upsert of `_ensure_user_progress` preserves the invariant lists
when the user had no row (the insert case). -/
theorem invL_insert_zero (p : List ProgressRow) (s : List StampRow) (u : Nat) (t : String)
    (h : ∀ w : Nat, progressStampsL p w = stampCountL s w ∧
      ∀ r ∈ p, r.user_id = w → r.stamps = stampCountL s w)
    (hany : p.any (fun r => r.user_id == u) = false) :
    ∀ w : Nat, progressStampsL (p ++ [⟨u, t, 0⟩]) w = stampCountL s w ∧
      ∀ r ∈ p ++ [⟨u, t, 0⟩], r.user_id = w → r.stamps = stampCountL s w := by
  have hnone : p.find? (fun r => r.user_id == u) = none := by
    rw [List.find?_eq_none]
    rw [List.any_eq_false] at hany
    exact hany
  have hcnt0 : stampCountL s u = 0 := by
    have h1 := (h u).1
    unfold progressStampsL at h1
    rw [hnone] at h1
    exact h1.symm
  intro w
  constructor
  · unfold progressStampsL
    rw [List.find?_append]
    by_cases hw : w = u
    · subst hw
      rw [hnone]
      simp [List.find?_cons, hcnt0]
    · have hrow : ((⟨u, t, 0⟩ : ProgressRow).user_id == w) = false := by
        rw [beq_eq_false_iff_ne]
        exact fun hh => hw hh.symm
      have h1 := (h w).1
      unfold progressStampsL at h1
      cases hf : p.find? (fun r => r.user_id == w) with
      | none =>
        rw [hf] at h1
        simp only [List.find?_cons, hrow]
        exact h1
      | some y =>
        rw [hf] at h1
        simp only [List.find?_cons, hrow]
        exact h1
  · intro r hr hru
    rcases List.mem_append.mp hr with hr | hr
    · exact (h w).2 r hr hru
    · have : r = ⟨u, t, 0⟩ := by simpa using hr
      subst this
      show 0 = stampCountL s w
      rw [← hru]
      exact hcnt0.symm

/-- The stamped path with an existing progress row: one ledger append plus
the increment of that user's rows preserves the invariant lists. -/
theorem invL_stamp_inc (p : List ProgressRow) (s : List StampRow) (u : Nat) (t S : String)
    (h : ∀ w : Nat, progressStampsL p w = stampCountL s w ∧
      ∀ r ∈ p, r.user_id = w → r.stamps = stampCountL s w)
    (hany : p.any (fun r => r.user_id == u) = true) :
    ∀ w : Nat,
      progressStampsL
          (p.map (fun r => if r.user_id == u then { r with stamps := r.stamps + 1 } else r)) w =
        stampCountL (s ++ [⟨u, t, S⟩]) w ∧
      ∀ r ∈ p.map (fun r => if r.user_id == u then { r with stamps := r.stamps + 1 } else r),
        r.user_id = w → r.stamps = stampCountL (s ++ [⟨u, t, S⟩]) w := by
  intro w
  constructor
  · unfold progressStampsL
    rw [find?_map_pred
      (fun r : ProgressRow => if r.user_id == u then { r with stamps := r.stamps + 1 } else r)
      (fun r => r.user_id == w) (fun a => inc_fn_pred u w a) p]
    rw [stampCountL_append]
    by_cases hw : w = u
    · subst hw
      rw [if_pos rfl]
      rw [List.any_eq_true] at hany
      obtain ⟨x, hx, hpx⟩ := hany
      cases hfind : p.find? (fun r => r.user_id == w) with
      | none =>
        rw [List.find?_eq_none] at hfind
        exact absurd hpx (hfind x hx)
      | some y =>
        have hy := List.find?_some hfind
        have hmem := List.mem_of_find?_eq_some hfind
        show (if y.user_id == w then { y with stamps := y.stamps + 1 } else y).stamps = _
        rw [if_pos hy]
        show y.stamps + 1 = stampCountL s w + 1
        rw [(h w).2 y hmem (eq_of_beq hy)]
    · rw [if_neg (fun hh => hw hh.symm)]
      cases hfind : p.find? (fun r => r.user_id == w) with
      | none =>
        have h1 := (h w).1
        unfold progressStampsL at h1
        rw [hfind] at h1
        exact h1
      | some y =>
        have hy := List.find?_some hfind
        have hyu : (y.user_id == u) = false := by
          rw [beq_eq_false_iff_ne]
          intro hh
          exact hw ((eq_of_beq hy).symm.trans hh)
        show (if y.user_id == u then { y with stamps := y.stamps + 1 } else y).stamps = _
        rw [if_neg (by rw [hyu]; exact Bool.false_ne_true)]
        have h1 := (h w).1
        unfold progressStampsL at h1
        rw [hfind] at h1
        exact h1
  · intro r hr hru
    rw [List.mem_map] at hr
    obtain ⟨a, ha, hfa⟩ := hr
    subst hfa
    rw [stampCountL_append]
    by_cases hau : (a.user_id == u) = true
    · rw [if_pos hau] at hru ⊢
      have huw : u = w := (eq_of_beq hau).symm.trans hru
      rw [if_pos huw]
      show a.stamps + 1 = stampCountL s w + 1
      rw [(h w).2 a ha hru]
    · rw [if_neg hau] at hru ⊢
      have hvw : ¬ u = w := fun hh => hau (beq_iff_eq.mpr (hru.trans hh.symm))
      rw [if_neg hvw]
      exact (h w).2 a ha hru

/-- The stamped path's dead-code fallback (no progress row): one ledger
append plus a fresh `stamps = 1` row preserves the invariant lists. -/
theorem invL_stamp_new (p : List ProgressRow) (s : List StampRow) (u : Nat) (t S : String)
    (h : ∀ w : Nat, progressStampsL p w = stampCountL s w ∧
      ∀ r ∈ p, r.user_id = w → r.stamps = stampCountL s w)
    (hany : p.any (fun r => r.user_id == u) = false) :
    ∀ w : Nat,
      progressStampsL (p ++ [⟨u, t, 1⟩]) w = stampCountL (s ++ [⟨u, t, S⟩]) w ∧
      ∀ r ∈ p ++ [⟨u, t, 1⟩], r.user_id = w →
        r.stamps = stampCountL (s ++ [⟨u, t, S⟩]) w := by
  have hnone : p.find? (fun r => r.user_id == u) = none := by
    rw [List.find?_eq_none]
    rw [List.any_eq_false] at hany
    exact hany
  have hcnt0 : stampCountL s u = 0 := by
    have h1 := (h u).1
    unfold progressStampsL at h1
    rw [hnone] at h1
    exact h1.symm
  intro w
  constructor
  · unfold progressStampsL
    rw [List.find?_append, stampCountL_append]
    by_cases hw : w = u
    · subst hw
      rw [hnone, if_pos rfl, hcnt0]
      simp [List.find?_cons]
    · rw [if_neg (fun hh => hw hh.symm)]
      have hrow : ((⟨u, t, 1⟩ : ProgressRow).user_id == w) = false := by
        rw [beq_eq_false_iff_ne]
        exact fun hh => hw hh.symm
      have h1 := (h w).1
      unfold progressStampsL at h1
      cases hf : p.find? (fun r => r.user_id == w) with
      | none =>
        rw [hf] at h1
        simp only [List.find?_cons, hrow]
        exact h1
      | some y =>
        rw [hf] at h1
        simp only [List.find?_cons, hrow]
        exact h1
  · intro r hr hru
    rw [stampCountL_append]
    rcases List.mem_append.mp hr with hr | hr
    · have hwu : ¬ u = w := by
        intro hh
        subst hh
        rw [List.any_eq_false] at hany
        exact hany r hr (beq_iff_eq.mpr hru)
      rw [if_neg hwu]
      exact (h w).2 r hr hru
    · have : r = ⟨u, t, 1⟩ := by simpa using hr
      subst this
      rw [if_pos hru]
      have hz : stampCountL s w = 0 := by
        rw [← hru]
        exact hcnt0
      rw [hz]

/-- `_ensure_user_progress` preserves the invariant. -/
theorem inv_ensure (db : DBState) (u : Nat) (t : String) (h : StampsInvariant db) :
    StampsInvariant (ensure_user_progress db u t) := by
  unfold ensure_user_progress
  split
  · exact h
  · rename_i hany
    rw [Bool.not_eq_true] at hany
    exact invL_insert_zero db.user_progress db.user_store_stamps u t h hany

/-- `mark_coupon_used` preserves the invariant (it only touches coupons). -/
theorem inv_mark (db : DBState) (u : Nat) (cid : String) (h : StampsInvariant db) :
    StampsInvariant (mark_coupon_used db u cid).2 := by
  cases e : db.user_coupons.filter (fun c => c.user_id == u && c.coupon_id == cid) with
  | nil =>
    simp only [mark_coupon_used, e]
    exact h
  | cons r rest =>
    simp only [mark_coupon_used, e, List.map_cons]
    exact h

/-- `record_stamp` preserves the invariant on every branch: store-not-found,
campaign-window rejection, already-stamped, the injected race rollback, and
the stamped transaction itself. -/
theorem inv_record_stamp (db : DBState) (u : Nat) (T S : String) (now : Int) (b : Bool)
    (h : StampsInvariant db) : StampsInvariant (record_stamp db u T S now b).2 := by
  have h1 := inv_ensure db u T h
  by_cases h0 : pyStrip S = ""
  · simp only [record_stamp, h0, reduceIte]
    exact h
  · cases hs : db.stores.find? (fun s => s.tenant_id == T && s.store_id == pyStrip S) with
    | none =>
      simp only [record_stamp, h0, reduceIte, hs]
      exact h
    | some st =>
      cases hrej : campaign_rejection db T now with
      | some msg =>
        simp only [record_stamp, h0, reduceIte, hs, hrej]
        exact h
      | none =>
        by_cases hdup : (ensure_user_progress db u T).user_store_stamps.any
            (fun r => r.user_id == u && r.store_id == pyStrip S) = true
        · simp only [record_stamp, h0, reduceIte, hs, hrej, hdup]
          exact h1
        · rw [Bool.not_eq_true] at hdup
          cases b with
          | true =>
            simp only [record_stamp, h0, reduceIte, hs, hrej, hdup, Bool.false_eq_true]
            exact h
          | false =>
            by_cases hpr : (ensure_user_progress db u T).user_progress.any
                (fun r => r.user_id == u) = true
            · simp only [record_stamp, h0, reduceIte, hs, hrej, hdup, Bool.false_eq_true,
                hpr]
              exact invL_stamp_inc (ensure_user_progress db u T).user_progress
                (ensure_user_progress db u T).user_store_stamps u T (pyStrip S) h1 hpr
            · rw [Bool.not_eq_true] at hpr
              simp only [record_stamp, h0, reduceIte, hs, hrej, hdup, Bool.false_eq_true,
                hpr]
              exact invL_stamp_new (ensure_user_progress db u T).user_progress
                (ensure_user_progress db u T).user_store_stamps u T (pyStrip S) h1 hpr

/-- One operation preserves the invariant. -/
theorem inv_applyOp (db : DBState) (op : Op) (h : StampsInvariant db) :
    StampsInvariant (applyOp db op) := by
  cases op with
  | recordStamp u t s now race => exact inv_record_stamp db u t s now race h
  | getProgress u t => exact inv_ensure db u t h
  | register u t => exact inv_ensure db u t h
  | markCouponUsed u c => exact inv_mark db u c h

/-- C1: after any finite sequence of sequentially executed operations
(RecordStamp attempts — including store-not-found, already-stamped,
window-rejected and uniqueness-violation-rollback outcomes — GetProgress
reads, user registration, MarkCouponUsed), from any state satisfying it,
every user's stored `user_progress.stamps` value equals that user's
`user_store_stamps` row count (and users without a progress row have no
ledger rows). -/
theorem stamps_invariant_preserved (db : DBState) (h : StampsInvariant db)
    (ops : List Op) : StampsInvariant (applyOps ops db) := by
  induction ops generalizing db with
  | nil => exact h
  | cons op ops ih => exact ih (applyOp db op) (inv_applyOp db op h)

/-- Witness for C1: the empty-user seed state satisfies the invariant, and
it is preserved across a concrete mixed sequence (a fresh stamp, a repeat
stamp, a read, a store-not-found attempt, a race-rollback attempt, and a
coupon use). -/
theorem stamps_invariant_preserved_witness :
  StampsInvariant dbOpen ∧
  StampsInvariant (applyOps
    [Op.recordStamp 1 "t1" "s1" 0 false,
     Op.recordStamp 1 "t1" "s1" 5 false,
     Op.getProgress 1 "t1",
     Op.recordStamp 1 "t1" "missing" 0 false,
     Op.recordStamp 1 "t1" "s2" 0 true,
     Op.markCouponUsed 1 "tenant-t1-rule-2",
     Op.register 2 "t1"] dbOpen) :=
  have h0 : StampsInvariant dbOpen := by
    intro w
    refine ⟨rfl, ?_⟩
    intro r hr
    simp [dbOpen] at hr
  ⟨h0, stamps_invariant_preserved dbOpen h0 _⟩

/-! ## Claim C2 — stamping twice in sequence -/

/-- The status of a `record_stamp` outcome (`none` for raised errors). -/
def record_status (r : RecordResult) : Option StampStatus :=
  match r with
  | .resp x => some x.status
  | .err _ _ => none

/-- The returned `stamps` of a `record_stamp` outcome. -/
def record_stamps_value (r : RecordResult) : Option Nat :=
  match r with
  | .resp x => some x.stamps
  | .err _ _ => none

/-- The 0-upsert leaves the ledger alone. -/
theorem ensure_stamps_eq (db : DBState) (u : Nat) (t : String) :
    (ensure_user_progress db u t).user_store_stamps = db.user_store_stamps := by
  unfold ensure_user_progress
  split <;> rfl

/-- The 0-upsert leaves the stores table alone. -/
theorem ensure_stores_eq (db : DBState) (u : Nat) (t : String) :
    (ensure_user_progress db u t).stores = db.stores := by
  unfold ensure_user_progress
  split <;> rfl

/-- The 0-upsert leaves the tenants table alone. -/
theorem ensure_tenants_eq (db : DBState) (u : Nat) (t : String) :
    (ensure_user_progress db u t).tenants = db.tenants := by
  unfold ensure_user_progress
  split <;> rfl

/-- The 0-upsert is a no-op when the user already has a progress row. -/
theorem ensure_noop (db : DBState) (u : Nat) (t : String)
    (h : db.user_progress.any (fun r => r.user_id == u) = true) :
    ensure_user_progress db u t = db := by
  unfold ensure_user_progress
  rw [if_pos h]

/-- The 0-upsert guarantees the user a progress row. -/
theorem ensure_has_row (db : DBState) (u : Nat) (t : String) :
    (ensure_user_progress db u t).user_progress.any (fun r => r.user_id == u) = true := by
  unfold ensure_user_progress
  split
  · rename_i h
    exact h
  · rw [List.any_append]
    simp

/-- The campaign-window check reads only the tenants table. -/
theorem campaign_rejection_congr (db db' : DBState) (T : String) (now : Int)
    (hT : db'.tenants = db.tenants) :
    campaign_rejection db' T now = campaign_rejection db T now := by
  unfold campaign_rejection
  rw [hT]

/-- A fresh in-window stamp on an existing store: the call returns `stamped`
with the post-increment aggregate, and the final state keeps the stores and
tenants tables, records the `(user, store)` ledger row, and holds a progress
row for the user. -/
theorem record_stamp_stamped_char (db : DBState) (u : Nat) (T S : String) (now : Int)
    (st : StoreRow)
    (hS : pyStrip S = S) (hS0 : ¬ S = "")
    (hst : db.stores.find? (fun s => s.tenant_id == T && s.store_id == S) = some st)
    (hwin : campaign_rejection db T now = none)
    (hnew : db.user_store_stamps.any (fun r => r.user_id == u && r.store_id == S) = false) :
    record_status (record_stamp db u T S now false).1 = some StampStatus.stamped ∧
    record_stamps_value (record_stamp db u T S now false).1 =
      some (progress_stamps (record_stamp db u T S now false).2 u) ∧
    (record_stamp db u T S now false).2.stores = db.stores ∧
    (record_stamp db u T S now false).2.tenants = db.tenants ∧
    (record_stamp db u T S now false).2.user_store_stamps.any
      (fun r => r.user_id == u && r.store_id == S) = true ∧
    (record_stamp db u T S now false).2.user_progress.any
      (fun r => r.user_id == u) = true := by
  have hnew1 : (ensure_user_progress db u T).user_store_stamps.any
      (fun r => r.user_id == u && r.store_id == S) = false := by
    rw [ensure_stamps_eq]
    exact hnew
  by_cases hpr : (ensure_user_progress db u T).user_progress.any
      (fun r => r.user_id == u) = true
  · simp only [record_stamp, hS, hS0, reduceIte, hst, hwin, hnew1, Bool.false_eq_true,
      hpr]
    refine ⟨rfl, rfl, ensure_stores_eq db u T, ensure_tenants_eq db u T, ?_, ?_⟩
    · rw [List.any_append]
      simp
    · rw [any_map_pred
        (fun r : ProgressRow => if r.user_id == u then { r with stamps := r.stamps + 1 } else r)
        (fun r => r.user_id == u) (fun a => inc_fn_pred u u a)]
      exact hpr
  · rw [Bool.not_eq_true] at hpr
    simp only [record_stamp, hS, hS0, reduceIte, hst, hwin, hnew1, Bool.false_eq_true,
      hpr]
    refine ⟨rfl, ?_, ensure_stores_eq db u T, ensure_tenants_eq db u T, ?_, ?_⟩
    · have hnone : (ensure_user_progress db u T).user_progress.find?
          (fun r => r.user_id == u) = none := by
        rw [List.find?_eq_none]
        rw [List.any_eq_false] at hpr
        exact hpr
      show some 1 = some (progress_stamps _ u)
      unfold progress_stamps
      rw [List.find?_append, hnone]
      simp [List.find?_cons]
    · rw [List.any_append]
      simp
    · rw [List.any_append]
      simp

/-- A repeat stamp on an existing store inside the window: the call returns
`already_stamped` carrying the stored aggregate unchanged. -/
theorem record_stamp_already_char (db : DBState) (u : Nat) (T S : String) (now : Int)
    (st : StoreRow)
    (hS : pyStrip S = S) (hS0 : ¬ S = "")
    (hst : db.stores.find? (fun s => s.tenant_id == T && s.store_id == S) = some st)
    (hwin : campaign_rejection db T now = none)
    (hdup : db.user_store_stamps.any (fun r => r.user_id == u && r.store_id == S) = true)
    (hprog : db.user_progress.any (fun r => r.user_id == u) = true) :
    record_status (record_stamp db u T S now false).1 =
      some StampStatus.already_stamped ∧
    record_stamps_value (record_stamp db u T S now false).1 =
      some (progress_stamps db u) := by
  simp only [record_stamp, hS, hS0, reduceIte, hst, hwin, ensure_noop db u T hprog, hdup]
  exact ⟨rfl, rfl⟩

/-- C2 amended: for a store S of tenant T with the campaign window open at
both calls, and a user who has NOT yet stamped S, two sequential
`RecordStamp(U, T, S)` calls return `stamped` then `already_stamped`, and
both return the same `stamps` value.  (Without the "not yet stamped"
premise the first call already returns `already_stamped`; see the
counterexample.) -/
theorem record_stamp_twice (db : DBState) (u : Nat) (T S : String) (now1 now2 : Int)
    (hS : pyStrip S = S) (hS0 : ¬ S = "")
    (hstore : (db.stores.find? (fun s => s.tenant_id == T && s.store_id == S)).isSome = true)
    (hwin1 : campaign_rejection db T now1 = none)
    (hwin2 : campaign_rejection db T now2 = none)
    (hnew : db.user_store_stamps.any (fun r => r.user_id == u && r.store_id == S) = false) :
    record_status (record_stamp db u T S now1 false).1 = some StampStatus.stamped ∧
    record_status
        (record_stamp (record_stamp db u T S now1 false).2 u T S now2 false).1 =
      some StampStatus.already_stamped ∧
    record_stamps_value (record_stamp db u T S now1 false).1 =
      record_stamps_value
        (record_stamp (record_stamp db u T S now1 false).2 u T S now2 false).1 := by
  obtain ⟨st, hst⟩ := Option.isSome_iff_exists.mp hstore
  obtain ⟨e1, e2, e3, e4, e5, e6⟩ :=
    record_stamp_stamped_char db u T S now1 st hS hS0 hst hwin1 hnew
  have hst2 : (record_stamp db u T S now1 false).2.stores.find?
      (fun s => s.tenant_id == T && s.store_id == S) = some st := by
    rw [e3]
    exact hst
  have hwin2' : campaign_rejection (record_stamp db u T S now1 false).2 T now2 = none := by
    rw [campaign_rejection_congr db (record_stamp db u T S now1 false).2 T now2 e4]
    exact hwin2
  obtain ⟨f1, f2⟩ :=
    record_stamp_already_char (record_stamp db u T S now1 false).2 u T S now2 st
      hS hS0 hst2 hwin2' e5 e6
  exact ⟨e1, f1, by rw [e2, f2]⟩

/-- Witness for the amended C2 theorem at a concrete state. -/
theorem record_stamp_twice_witness :
  record_status (record_stamp dbOpen 7 "t1" "s1" 0 false).1 =
    some StampStatus.stamped ∧
  record_status
      (record_stamp (record_stamp dbOpen 7 "t1" "s1" 0 false).2 7 "t1" "s1" 1 false).1 =
    some StampStatus.already_stamped ∧
  record_stamps_value (record_stamp dbOpen 7 "t1" "s1" 0 false).1 =
    record_stamps_value
      (record_stamp (record_stamp dbOpen 7 "t1" "s1" 0 false).2 7 "t1" "s1" 1 false).1 :=
  record_stamp_twice dbOpen 7 "t1" "s1" 0 1 (by decide) (by decide) (by decide)
    (by decide) (by decide) (by decide)

/-- C2 counterexample: the claim as stated quantifies over every user,
including one who already stamped the store.  In this concrete state user 1
has already stamped `s1` (store exists, window open), so the FIRST of the
two sequential calls returns `already_stamped`, not `stamped`. -/
theorem record_stamp_twice_counterexample :
  record_status
      (record_stamp
        ⟨[⟨"t1", ⟨none, none, none⟩⟩], [⟨"t1", "s1", "Store One"⟩],
         [⟨1, "t1", 1⟩], [⟨1, "t1", "s1"⟩], [], []⟩ 1 "t1" "s1" 0 false).1 =
    some StampStatus.already_stamped ∧
  ¬ record_status
      (record_stamp
        ⟨[⟨"t1", ⟨none, none, none⟩⟩], [⟨"t1", "s1", "Store One"⟩],
         [⟨1, "t1", 1⟩], [⟨1, "t1", "s1"⟩], [], []⟩ 1 "t1" "s1" 0 false).1 =
    some StampStatus.stamped ∧
  ((⟨[⟨"t1", ⟨none, none, none⟩⟩], [⟨"t1", "s1", "Store One"⟩],
     [⟨1, "t1", 1⟩], [⟨1, "t1", "s1"⟩], [], []⟩ : DBState).stores.find?
    (fun s => s.tenant_id == "t1" && s.store_id == "s1")).isSome = true ∧
  campaign_rejection
      ⟨[⟨"t1", ⟨none, none, none⟩⟩], [⟨"t1", "s1", "Store One"⟩],
       [⟨1, "t1", 1⟩], [⟨1, "t1", "s1"⟩], [], []⟩ "t1" 0 = none := by
  refine ⟨rfl, by decide, rfl, rfl⟩

end StampRally
